/-
  Verification of "the-referee": a technology comparison tool.

  Shallow embedding of the Python sources in src/lib/referee/ :
  - models.py                : enums, data structures and their pydantic validators
  - requirements_processor.py: requirements → weighted criteria
  - comparison_engine.py     : compatibility scoring, trade-off matrix, highlights
  - recommendation_engine.py : ranking, confidence, alternative scenarios
  - analyzer.py              : knowledge base and fuzzy technology lookup
  - input_parser.py          : CLI-side validation of custom dimensions
  - cli.py                   : the conflict-surfacing requirements phase

  Conventions of the embedding:
  - Python floats are modelled as exact rationals (ℚ); all constants in the
    sources are exact decimals, and every property at stake has wide margins.
  - Python dicts are modelled as association lists in insertion order, or as
    fixed records when the key set is static (the five weight dimensions).
  - Python's stable `sorted` is modelled by `List.insertionSort` (a stable
    sort) with the corresponding key comparison.
  - `raise` is modelled with `Except`/`Option`; Python's `int()` on a
    non-negative float is `Rat.floor`; `str.lower` maps `Char.toLower`
    (the inputs of interest are ASCII); `str.strip` drops whitespace at
    both ends.
-/
import Mathlib

namespace Referee

/-! ## models.py: enums -/

inductive BudgetLevel | LOW | MEDIUM | HIGH
deriving DecidableEq, Repr

inductive TimelineLevel | TIGHT | MODERATE | FLEXIBLE
deriving DecidableEq, Repr

inductive ScaleLevel | SMALL | MEDIUM | LARGE
deriving DecidableEq, Repr

inductive ExpertiseLevel | BEGINNER | INTERMEDIATE | EXPERT
deriving DecidableEq, Repr

inductive ConfidenceLevel | LOW | MEDIUM | HIGH
deriving DecidableEq, Repr

inductive MaturityLevel | EXPERIMENTAL | STABLE | MATURE
deriving DecidableEq, Repr

/-! ## models.py: data structures -/

/-- `ProjectRequirements` (models.py).  `team_size` is a Python int. -/
structure ProjectRequirements where
  team_size : ℤ
  budget : BudgetLevel
  timeline : TimelineLevel
  scalability_needs : ScaleLevel
  expertise_level : ExpertiseLevel
deriving DecidableEq, Repr

/-- `DimensionScore` (models.py): a 0–5 score with an explanation. -/
structure DimensionScore where
  score : ℚ
  explanation : String
deriving DecidableEq, Repr

/-- `TechnologyMetadata` (models.py). -/
structure TechnologyMetadata where
  maturity : MaturityLevel
  license : String
  maintainer : String
deriving DecidableEq, Repr

/-- `TechnologyProfile` (models.py).  `dimensions` is a dict in insertion
order, modelled as an association list. -/
structure TechnologyProfile where
  name : String
  category : String
  dimensions : List (String × DimensionScore)
  pros : List String
  cons : List String
  best_for : List String
  metadata : TechnologyMetadata
deriving DecidableEq, Repr

/-- `WeightedCriteria` (models.py). -/
structure WeightedCriteria where
  dimension_weights : List (String × ℚ)
  priority_factors : List String
deriving DecidableEq, Repr

/-- `CompatibilityScore` (models.py). -/
structure CompatibilityScore where
  technology : String
  score : ℚ
  reasoning : String
deriving DecidableEq, Repr

/-- `TradeoffHighlight` (models.py). -/
structure TradeoffHighlight where
  dimension : String
  leader : String
  explanation : String
deriving DecidableEq, Repr

/-- `TradeoffMatrix` (models.py). -/
structure TradeoffMatrix where
  technologies : List String
  dimensions : List String
  scores : List (List ℚ)
  explanations : List (List String)
  highlights : List TradeoffHighlight
deriving DecidableEq, Repr

/-- `RankedChoice` (models.py). -/
structure RankedChoice where
  technology : String
  score : ℚ
  confidence : ConfidenceLevel
  reasoning : String
deriving DecidableEq, Repr

/-- `AlternativeScenario` (models.py). -/
structure AlternativeScenario where
  scenario : String
  recommended_tech : String
  explanation : String
deriving DecidableEq, Repr

/-- `Recommendation` (models.py). -/
structure Recommendation where
  ranked_choices : List RankedChoice
  key_decision_factors : List String
  caveats : List String
  alternative_scenarios : Option (List AlternativeScenario)
deriving DecidableEq, Repr

/-! ## Generic helpers shared by the modules -/

/-- Python's `max` over a list of numbers (first argument is the head of a
non-empty list; the `[]` case is unreachable in the modelled code). -/
def listMax : List ℚ → ℚ
  | [] => 0
  | x :: xs => xs.foldl max x

/-- Python's `min` over a list of numbers. -/
def listMin : List ℚ → ℚ
  | [] => 0
  | x :: xs => xs.foldl min x

/-- Python's `sorted(l, key=val, reverse=True)` on (name, value) pairs:
a stable sort putting larger values first. -/
def sortDescByVal (l : List (String × ℚ)) : List (String × ℚ) :=
  l.insertionSort (fun a b => b.2 ≤ a.2)

/-- Python's `sorted(l, key=val)` on (name, value) pairs: a stable
ascending sort. -/
def sortAscByVal (l : List (String × ℚ)) : List (String × ℚ) :=
  l.insertionSort (fun a b => a.2 ≤ b.2)

/-- Python dict-order duplicate removal keeping the first occurrence
(the `seen` loop at requirements_processor.py:404-410). -/
def pyDedup : List String → List String :=
  go []
where
  go (seen : List String) : List String → List String
    | [] => []
    | x :: xs => if x ∈ seen then go seen xs else x :: go (x :: seen) xs

/-! ## requirements_processor.py -/

/-- Errors raised by `RequirementsProcessor.process_requirements`:
`ConflictingRequirementsError` carries the conflict list, every other
exception is wrapped into `RequirementsProcessingError`. -/
inductive ReqError
  | conflicting (conflicts : List String)
  | processing (msg : String)
deriving DecidableEq, Repr

/-- The five weight dimensions, as a record (the Python `weights` dict
always holds exactly these keys). -/
structure DimWeights where
  cost : ℚ
  scalability : ℚ
  complexity : ℚ
  ecosystem : ℚ
  performance : ℚ
deriving DecidableEq, Repr

namespace DimWeights

/-- Dict read `weights[name]` (only called with the five valid names). -/
def get (w : DimWeights) (d : String) : ℚ :=
  if d = "cost" then w.cost
  else if d = "scalability" then w.scalability
  else if d = "complexity" then w.complexity
  else if d = "ecosystem" then w.ecosystem
  else if d = "performance" then w.performance
  else 0

/-- Dict write `weights[name] = q`. -/
def set (w : DimWeights) (d : String) (q : ℚ) : DimWeights :=
  if d = "cost" then { w with cost := q }
  else if d = "scalability" then { w with scalability := q }
  else if d = "complexity" then { w with complexity := q }
  else if d = "ecosystem" then { w with ecosystem := q }
  else if d = "performance" then { w with performance := q }
  else w

/-- `weights.items()` in the dict insertion order of
requirements_processor.py:103-109. -/
def items (w : DimWeights) : List (String × ℚ) :=
  [("cost", w.cost), ("scalability", w.scalability), ("complexity", w.complexity),
   ("ecosystem", w.ecosystem), ("performance", w.performance)]

/-- `sum(weights.values())`. -/
def total (w : DimWeights) : ℚ :=
  w.cost + w.scalability + w.complexity + w.ecosystem + w.performance

/-- `{dim: weight / total for ...}` (requirements_processor.py:172-173). -/
def normalize (w : DimWeights) : DimWeights :=
  let t := w.total
  ⟨w.cost / t, w.scalability / t, w.complexity / t, w.ecosystem / t, w.performance / t⟩

end DimWeights

/-- The iteration order of the `normalized_weights` dict
(same as the `weights` dict: requirements_processor.py:103-109). -/
def weightsDictOrder : List String :=
  ["cost", "scalability", "complexity", "ecosystem", "performance"]

/-- The `dimension_boosts` dict in its insertion order
(cost, complexity, scalability, performance, ecosystem — each key is first
assigned in that textual order, whatever the requirement values are). -/
def boostItems (req : ProjectRequirements) : List (String × ℚ) :=
  let costBoost : ℚ :=
    match req.budget with
    | .LOW => 15/100
    | .MEDIUM => 5/100
    | .HIGH => -3/100
  let timelineBoost : ℚ :=
    match req.timeline with
    | .TIGHT => 15/100
    | .MODERATE => 6/100
    | .FLEXIBLE => -6/100
  let complexityBoost : ℚ :=
    match req.expertise_level with
    | .BEGINNER => timelineBoost + 10/100
    | .EXPERT => timelineBoost - 5/100
    | .INTERMEDIATE => timelineBoost
  let scalabilityBoost : ℚ :=
    match req.scalability_needs with
    | .LARGE => 18/100
    | .MEDIUM => 6/100
    | .SMALL => -4/100
  let performanceBoost : ℚ :=
    match req.scalability_needs with
    | .LARGE => 18/100
    | .MEDIUM => 5/100
    | .SMALL => -3/100
  let sizeBoost : ℚ := (req.team_size : ℚ) * (15/1000)
  let expertiseEcosystemBoost : ℚ :=
    match req.expertise_level with
    | .BEGINNER => 12/100
    | .INTERMEDIATE => 4/100
    | .EXPERT => -4/100
  [("cost", costBoost), ("complexity", complexityBoost),
   ("scalability", scalabilityBoost), ("performance", performanceBoost),
   ("ecosystem", sizeBoost + expertiseEcosystemBoost)]

/-- The "scale-priority override" block
(requirements_processor.py:182-228), applied to the normalized weights. -/
def scaleOverride (req : ProjectRequirements) (n : DimWeights) : DimWeights :=
  if req.scalability_needs = ScaleLevel.LARGE then
    let competing : ℕ :=
      (if req.budget = BudgetLevel.LOW then 1 else 0) +
      (if req.timeline = TimelineLevel.TIGHT then 1 else 0) +
      (if req.expertise_level = ExpertiseLevel.BEGINNER then 1 else 0)
    if competing ≥ 2 then
      let sortedWeights := sortDescByVal n.items
      let scalabilityRank := sortedWeights.findIdx (fun p => p.1 = "scalability")
      let performanceRank := sortedWeights.findIdx (fun p => p.1 = "performance")
      if min scalabilityRank performanceRank > 2 then
        let targetDim := if n.scalability ≥ n.performance then "scalability" else "performance"
        let thirdHighest := (sortedWeights.getD 2 ("", 0)).2
        let targetWeight := thirdHighest + 1/100
        let needed := targetWeight - n.get targetDim
        let sortedByWeight := sortAscByVal n.items
        let step := fun (st : DimWeights × ℚ) (p : String × ℚ) =>
          if p.1 ≠ targetDim ∧ st.2 > 0 then
            let avail := max 0 (p.2 - 5/100)
            let red := min st.2 avail
            (st.1.set p.1 (p.2 - red), st.2 - red)
          else st
        let after := sortedByWeight.foldl step (n, needed)
        DimWeights.normalize (after.1.set targetDim targetWeight)
      else n
    else n
  else n

/-- The "priority-guarantee" loop over the top highlighted dimensions
(requirements_processor.py:230-257).  `top` is
`highlighted_dimensions[:max_highlights]`. -/
def priorityPass (top : List (String × ℚ)) (n0 : DimWeights) : DimWeights :=
  top.foldl
    (fun n p =>
      if n.get p.1 ≤ 1/5 then
        let targetWeight : ℚ := 1/5 + 1/100
        let needed := targetWeight - n.get p.1
        let nonHighlighted := weightsDictOrder.filter (fun d => ¬ top.any (fun q => q.1 = d))
        if nonHighlighted ≠ [] then
          let totalNH := (nonHighlighted.map n.get).sum
          if totalNH > needed then
            let reduced := nonHighlighted.foldl
              (fun cur d =>
                let reduction := needed * (cur.get d / totalNH)
                cur.set d (max (5/100) (cur.get d - reduction))) n
            DimWeights.normalize (reduced.set p.1 targetWeight)
          else n
        else n
      else n)
    n0

/-- `RequirementsProcessor._calculate_dimension_weights`
(requirements_processor.py:91-259). -/
def calcDimensionWeights (req : ProjectRequirements) : DimWeights :=
  let boosts := boostItems req
  let boosted : DimWeights := (boosts.foldl (fun w p => w.set p.1 (w.get p.1 + p.2))
    ⟨1/5, 1/5, 1/5, 1/5, 1/5⟩)
  let clamped : DimWeights :=
    ⟨max (5/100) boosted.cost, max (5/100) boosted.scalability, max (5/100) boosted.complexity,
     max (5/100) boosted.ecosystem, max (5/100) boosted.performance⟩
  let n := clamped.normalize
  let highlighted := sortDescByVal (boosts.filter (fun p => p.2 > 2/100))
  let n1 := scaleOverride req n
  let maxHighlights := min 3 highlighted.length
  priorityPass (highlighted.take maxHighlights) n1

/-- `RequirementsProcessor._identify_priority_factors`
(requirements_processor.py:353-412). -/
def identifyPriorityFactors (req : ProjectRequirements) : List String :=
  let budgetFactors :=
    match req.budget with
    | .LOW => ["Cost optimization and budget constraints", "Open-source solutions preferred"]
    | .MEDIUM => ["Balanced cost considerations"]
    | .HIGH => []
  let timelineFactors :=
    match req.timeline with
    | .TIGHT => ["Rapid development and deployment", "Minimal learning curve required",
                 "Simple implementation approach"]
    | .MODERATE => ["Reasonable learning curve acceptable"]
    | .FLEXIBLE => []
  let scaleFactors :=
    match req.scalability_needs with
    | .LARGE => ["Horizontal scalability requirements", "High performance optimization",
                 "Enterprise-grade reliability"]
    | .MEDIUM => ["Moderate scalability needs", "Performance considerations"]
    | .SMALL => []
  let teamFactors :=
    if req.team_size ≥ 5 then ["Team collaboration features", "Mature tooling ecosystem"] else []
  let expertiseFactors :=
    match req.expertise_level with
    | .BEGINNER => ["Strong ecosystem and community support", "Comprehensive documentation needed",
                    "Gentle learning curve essential"]
    | .INTERMEDIATE => ["Good community support helpful"]
    | .EXPERT => ["Advanced customization capabilities", "Cutting-edge features available"]
  pyDedup (budgetFactors ++ timelineFactors ++ scaleFactors ++ teamFactors ++ expertiseFactors)

/-- `RequirementsProcessor._validate_requirements`
(requirements_processor.py:439-474); the enum re-checks always pass in the
typed model.  Returns the `ValueError` message on failure. -/
def validateRequirements (req : ProjectRequirements) : Option String :=
  if req.team_size < 1 then some "Team size must be at least 1"
  else if req.team_size > 1000 then some "Team size seems unreasonably large"
  else none

/-- `RequirementsProcessor._detect_requirement_conflicts`
(requirements_processor.py:476-527). -/
def detectRequirementConflicts (req : ProjectRequirements) : List String :=
  (if req.budget = BudgetLevel.LOW ∧ req.scalability_needs = ScaleLevel.LARGE ∧
      req.timeline = TimelineLevel.TIGHT then
    ["Low budget, large scalability needs, and tight timeline create competing priorities"]
  else []) ++
  (if req.expertise_level = ExpertiseLevel.BEGINNER ∧ req.timeline = TimelineLevel.TIGHT ∧
      req.scalability_needs = ScaleLevel.LARGE then
    ["Beginner expertise with tight timeline and large scale requirements may be unrealistic"]
  else []) ++
  (if req.budget = BudgetLevel.LOW ∧ req.expertise_level = ExpertiseLevel.EXPERT ∧
      req.team_size ≥ 5 then
    ["Low budget with large expert team suggests potential resource mismatch"]
  else []) ++
  (if req.scalability_needs = ScaleLevel.SMALL ∧ req.team_size ≥ 8 then
    ["Small scalability needs with large team may lead to over-engineering"]
  else []) ++
  (if req.budget = BudgetLevel.HIGH ∧ req.timeline = TimelineLevel.TIGHT ∧
      req.expertise_level = ExpertiseLevel.BEGINNER then
    ["High budget with tight timeline and beginner team may indicate poor planning"]
  else [])

/-- `RequirementsProcessor._validate_weights`
(requirements_processor.py:529-576).  Returns the `ValueError` message of
the first failing check. -/
def validateWeights (weights : List (String × ℚ)) : Option String :=
  if weights = [] then some "Weights dictionary cannot be empty"
  else if ¬ (["cost", "scalability", "complexity", "ecosystem",
              "performance"].all (fun d => weights.any (fun p => p.1 = d))) then
    some "Missing required dimensions in weights"
  else if weights.any (fun p => ¬ (0 ≤ p.2 ∧ p.2 ≤ 1)) then
    some "Weight must be between 0 and 1"
  else if ¬ (95/100 ≤ (weights.map (fun p => p.2)).sum ∧
             (weights.map (fun p => p.2)).sum ≤ 105/100) then
    some "Weights must sum to approximately 1.0"
  else if listMax (weights.map (fun p => p.2)) > 6/10 then
    some "A dimension has excessive weight"
  else if listMin (weights.map (fun p => p.2)) < 5/100 then
    some "A dimension has insufficient weight"
  else none

/-- `RequirementsProcessor.process_requirements`
(requirements_processor.py:48-89): validate, detect conflicts (raised as
`ConflictingRequirementsError`), compute weights and priority factors,
validate the weights, and return the `WeightedCriteria`. -/
def processRequirements (req : ProjectRequirements) : Except ReqError WeightedCriteria :=
  match validateRequirements req with
  | some msg => .error (.processing ("Failed to process requirements: " ++ msg))
  | none =>
    let conflicts := detectRequirementConflicts req
    if conflicts ≠ [] then .error (.conflicting conflicts)
    else
      let w := (calcDimensionWeights req).items
      let pf := identifyPriorityFactors req
      match validateWeights w with
      | some msg => .error (.processing ("Failed to process requirements: " ++ msg))
      | none => .ok ⟨w, pf⟩

/-- `process_requirements` with conflict detection bypassed, as the CLI
does after surfacing a conflict
(cli.py:80-92 replaces `_detect_requirement_conflicts` by `lambda req: []`). -/
def processRequirementsBypassConflicts (req : ProjectRequirements) :
    Except ReqError WeightedCriteria :=
  match validateRequirements req with
  | some msg => .error (.processing ("Failed to process requirements: " ++ msg))
  | none =>
    let w := (calcDimensionWeights req).items
    let pf := identifyPriorityFactors req
    match validateWeights w with
    | some msg => .error (.processing ("Failed to process requirements: " ++ msg))
    | none => .ok ⟨w, pf⟩

/-- The requirements phase of the CLI (cli.py:57-96): on a
`ConflictingRequirementsError` the conflicts are surfaced (printed) and
processing continues with conflict detection bypassed.  Returns the
surfaced conflicts together with the resulting criteria. -/
def runRequirementsPhase (req : ProjectRequirements) :
    Except ReqError (List String × WeightedCriteria) :=
  match processRequirements req with
  | .ok wc => .ok ([], wc)
  | .error (.conflicting cs) =>
    match processRequirementsBypassConflicts req with
    | .ok wc => .ok (cs, wc)
    | .error e => .error e
  | .error e => .error e

/-! ## String helpers modelling Python string operations -/

/-- Python `str.lower()` (the knowledge base and dimension names are ASCII,
where `Char.toLower` agrees with Python). -/
def pyLower (s : String) : String := ⟨s.data.map Char.toLower⟩

/-- Drop whitespace at both ends of a character list. -/
def stripChars (cs : List Char) : List Char :=
  ((cs.dropWhile Char.isWhitespace).reverse.dropWhile Char.isWhitespace).reverse

/-- Python `str.strip()`. -/
def pyStrip (s : String) : String := ⟨stripChars s.data⟩

/-- `needle` is a prefix of `hay` (Boolean). -/
def prefixB : List Char → List Char → Bool
  | [], _ => true
  | _ :: _, [] => false
  | a :: as, b :: bs => a = b && prefixB as bs

/-- Python's substring test `needle in hay` (Boolean). -/
def substrB (needle : List Char) : List Char → Bool
  | [] => needle.isEmpty
  | c :: hay => prefixB needle (c :: hay) || substrB needle hay

/-- Python `str.split()` with no arguments: split on whitespace runs,
dropping empty pieces. -/
def pySplitWs (s : String) : List String :=
  (s.split Char.isWhitespace).filter (fun w => w ≠ "")

/-- Python `str.title()` for the dimension labels in decision factors:
uppercase each letter that starts an alphabetic run, lowercase the rest. -/
def pyTitle (s : String) : String :=
  ⟨go true s.data⟩
where
  go (startOfWord : Bool) : List Char → List Char
    | [] => []
    | c :: cs =>
      (if c.isAlpha then (if startOfWord then c.toUpper else c.toLower) else c) ::
        go (¬ c.isAlpha) cs

/-- Round a rational to the nearest integer, ties to even (the rounding of
Python's float formatting, on exact decimal inputs). -/
def roundHalfEven (q : ℚ) : ℤ :=
  let f := ⌊q⌋
  let r := q - f
  if r < 1/2 then f
  else if r > 1/2 then f + 1
  else if f % 2 = 0 then f else f + 1

/-- Python `"{:.1f}".format(q)` for non-negative `q`. -/
def fmt1f (q : ℚ) : String :=
  let t := roundHalfEven (q * 10)
  toString (t / 10) ++ "." ++ toString (t % 10)

/-- Python `"{:.1%}".format(q)` for non-negative `q`. -/
def fmtPct1 (q : ℚ) : String :=
  let t := roundHalfEven (q * 1000)
  toString (t / 10) ++ "." ++ toString (t % 10) ++ "%"

/-! ## comparison_engine.py -/

/-- Exceptions of comparison_engine.py: `ValueError`,
`InsufficientDataError` and `ComparisonError`. -/
inductive CompError
  | valueError (msg : String)
  | insufficientData (msg : String)
  | comparisonError (msg : String)
deriving DecidableEq, Repr

/-- The five standard dimensions (comparison_engine.py:270). -/
def standardDimensions : List String :=
  ["cost", "scalability", "complexity", "ecosystem", "performance"]

/-- One entry of the `dimension_contributions` list built by
`calculate_compatibility` (comparison_engine.py:210-228). -/
structure DimContribution where
  dimension : String
  score : ℚ
  weight : ℚ
  contribution : ℚ
deriving DecidableEq, Repr

/-- `ComparisonEngine._generate_compatibility_reasoning`
(comparison_engine.py:451-506). -/
def generateCompatibilityReasoning (contribs : List DimContribution)
    (wc : WeightedCriteria) (finalScore : ℚ) : String :=
  let part1 := "Overall compatibility: " ++ toString ⌊finalScore * 100⌋ ++ "%"
  let sortedContribs := contribs.insertionSort (fun a b => b.contribution ≤ a.contribution)
  let top := sortedContribs.take 3
  let strengths := (top.filter (fun c => c.weight > 1/5 ∧ c.score ≥ 4)).map
    (fun c => "excellent " ++ c.dimension)
  let weaknesses := (top.filter (fun c => c.weight > 1/5 ∧ ¬ c.score ≥ 4 ∧ c.score ≤ 2)).map
    (fun c => "limited " ++ c.dimension)
  let parts := [part1] ++
    (if strengths ≠ [] then ["Key strengths: " ++ String.intercalate ", " strengths] else []) ++
    (if weaknesses ≠ [] then ["Areas of concern: " ++ String.intercalate ", " weaknesses] else []) ++
    (match wc.priority_factors with
     | [] => []
     | top :: _ => ["Evaluated against priority: " ++ top])
  if parts ≠ [] then String.intercalate ". " parts
  else "Standard evaluation across all dimensions"

/-- The accumulation step of `calculate_compatibility`
(comparison_engine.py:197-231): running weighted total, running weight
and the contributions list. -/
def compatStep (tech : TechnologyProfile) (st : ℚ × ℚ × List DimContribution)
    (p : String × ℚ) : ℚ × ℚ × List DimContribution :=
  if p.2 ≤ 0 then st
  else
    match tech.dimensions.lookup p.1 with
    | some ds =>
      let normalizedScore := max 0 (min 1 (ds.score / 5))
      let contribution := normalizedScore * p.2
      (st.1 + contribution, st.2.1 + p.2, st.2.2 ++ [⟨p.1, ds.score, p.2, contribution⟩])
    | none =>
      let contribution := (1/2) * p.2 * (1/2)
      (st.1 + contribution, st.2.1 + p.2 * (1/2), st.2.2 ++ [⟨p.1, 5/2, p.2, contribution⟩])

/-- `ComparisonEngine.calculate_compatibility` (comparison_engine.py:166-252).
Raises `ComparisonError` (wrapping the `ValueError`) when the criteria
have no dimension weights. -/
def calculateCompatibility (tech : TechnologyProfile) (wc : WeightedCriteria) :
    Except CompError CompatibilityScore :=
  if wc.dimension_weights = [] then
    .error (.comparisonError ("Failed to calculate compatibility for " ++ tech.name ++
      ": Weighted criteria must contain dimension weights"))
  else
    let acc := wc.dimension_weights.foldl (compatStep tech) (0, 0, [])
    let finalScore := if acc.2.1 > 0 then acc.1 / acc.2.1 else 1/2
    let reasoning := generateCompatibilityReasoning acc.2.2 wc finalScore
    .ok ⟨tech.name, max 0 (min 1 finalScore), reasoning⟩

/-- `ComparisonEngine._get_comparison_dimensions`
(comparison_engine.py:254-282); the collision check against the standard
dimensions is case-sensitive set intersection. -/
def getComparisonDimensions (customDimensions : Option (List String)) :
    Except CompError (List String) :=
  match customDimensions with
  | none => .ok standardDimensions
  | some cds =>
    if cds = [] then .ok standardDimensions
    else if cds.any (fun d => d ∈ standardDimensions) then
      .error (.valueError "Custom dimensions conflict with standard dimensions")
    else .ok (standardDimensions ++ cds)

/-- The default profile used for out-of-range list reads in the model
(Python would raise `IndexError`; all modelled reads are in range). -/
def emptyProfile : TechnologyProfile :=
  ⟨"", "", [], [], [], [], ⟨.STABLE, "", ""⟩⟩

/-- The column of scores for dimension index `dimIdx`
(`dim_scores` at comparison_engine.py:340). -/
def colScores (techs : List TechnologyProfile) (scores : List (List ℚ)) (dimIdx : ℕ) : List ℚ :=
  (List.range techs.length).map (fun ti => (scores.getD ti []).getD dimIdx 0)

/-- The body of the highlights loop for one dimension index
(comparison_engine.py:339-360). -/
def highlightAt (techs : List TechnologyProfile) (dims : List String)
    (scores : List (List ℚ)) (dimIdx : ℕ) : Option TradeoffHighlight :=
  let dimension := dims.getD dimIdx ""
  let dimScores := colScores techs scores dimIdx
  let maxScore := listMax dimScores
  let maxTechIdx := dimScores.indexOf maxScore
  let leaderTech := (techs.getD maxTechIdx emptyProfile).name
  let sortedScores := dimScores.insertionSort (fun a b => b ≤ a)
  if sortedScores.length > 1 ∧ sortedScores.getD 0 0 - sortedScores.getD 1 0 ≥ 1/2 then
    let explanation :=
      match (techs.getD maxTechIdx emptyProfile).dimensions.lookup dimension with
      | some ds => ds.explanation
      | none => "Leads in " ++ dimension ++ " with score of " ++ fmt1f maxScore
    some ⟨dimension, leaderTech, explanation⟩
  else none

/-- `ComparisonEngine._identify_highlights` (comparison_engine.py:318-362):
the per-dimension loop with conditional append. -/
def identifyHighlights (techs : List TechnologyProfile) (dims : List String)
    (scores : List (List ℚ)) : List TradeoffHighlight :=
  (List.range dims.length).filterMap (highlightAt techs dims scores)

/-- `ComparisonEngine._validate_matrix_inputs` (comparison_engine.py:406-428). -/
def validateMatrixInputs (techs : List TechnologyProfile) (dims : List String) : Option String :=
  if techs = [] then some "At least one technology must be provided"
  else if dims = [] then some "At least one dimension must be provided"
  else if dims.length > 10 then some "Maximum of 10 dimensions can be compared simultaneously"
  else none

/-- `ComparisonEngine.create_tradeoff_matrix` (comparison_engine.py:98-164).
The per-cell `except` fallback (2.5) is unreachable in the pure model. -/
def createTradeoffMatrix (techs : List TechnologyProfile) (dims : List String) :
    Except CompError TradeoffMatrix :=
  match validateMatrixInputs techs dims with
  | some msg => .error (.comparisonError ("Failed to create trade-off matrix: " ++ msg))
  | none =>
    let scores := techs.map (fun t => dims.map (fun d =>
      match t.dimensions.lookup d with
      | some ds => ds.score
      | none => 3))
    let explanations := techs.map (fun t => dims.map (fun d =>
      match t.dimensions.lookup d with
      | some ds => ds.explanation
      | none => "No specific data available for " ++ d))
    let highlights := identifyHighlights techs dims scores
    .ok ⟨techs.map (fun t => t.name), dims, scores, explanations, highlights⟩

/-- One technology's entry in the side-by-side comparison data
(comparison_engine.py:296-314). -/
structure SideBySideEntry where
  category : String
  pros : List String
  cons : List String
  best_for : List String
  dimensions : List (String × DimensionScore)
  metadata : TechnologyMetadata
deriving DecidableEq, Repr

/-- `ComparisonEngine._generate_side_by_side_data`
(comparison_engine.py:284-316). -/
def generateSideBySideData (techs : List TechnologyProfile) :
    List (String × SideBySideEntry) :=
  techs.map (fun t => (t.name, ⟨t.category, t.pros, t.cons, t.best_for, t.dimensions, t.metadata⟩))

/-- `ComparisonEngine._create_fallback_compatibility_score`
(comparison_engine.py:430-449). -/
def fallbackCompatibilityScore (tech : TechnologyProfile) : CompatibilityScore :=
  ⟨tech.name, 1/2, "Compatibility calculation failed. Using neutral score for comparison."⟩

/-- `ComparisonEngine._validate_comparison_inputs`
(comparison_engine.py:364-404).  `count > len/2` is the exact test
`2 * count > len`. -/
def validateComparisonInputs (techs : List TechnologyProfile) (wc : WeightedCriteria) :
    Option CompError :=
  if techs = [] then some (.valueError "At least one technology must be provided for comparison")
  else if techs.length < 2 then
    some (.valueError "At least two technologies must be provided for comparison")
  else if techs.length > 5 then
    some (.valueError "Maximum of 5 technologies can be compared simultaneously")
  else if wc.dimension_weights = [] then
    some (.insufficientData "Weighted criteria with dimension weights must be provided")
  else
    let insufficientCount := (techs.filter (fun t => t.dimensions.length < 3)).length
    if insufficientCount * 2 > techs.length then
      some (.insufficientData
        "More than half of the technologies have insufficient dimension data for meaningful comparison")
    else none

/-- The result bundle of `generate_comparison` (comparison_engine.py:87-93). -/
structure ComparisonOutput where
  technologies : List String
  comparison_data : List (String × SideBySideEntry)
  tradeoff_matrix : TradeoffMatrix
  compatibility_scores : List CompatibilityScore
  weighted_criteria : WeightedCriteria
deriving DecidableEq, Repr

/-- `ComparisonEngine.generate_comparison` (comparison_engine.py:44-96):
validation happens outside the `try`, so `InsufficientDataError` escapes
as itself; every exception inside the `try` is re-raised as a
`ComparisonError`. -/
def generateComparison (techs : List TechnologyProfile) (wc : WeightedCriteria)
    (customDimensions : Option (List String)) : Except CompError ComparisonOutput :=
  match validateComparisonInputs techs wc with
  | some e => .error e
  | none =>
    match getComparisonDimensions customDimensions with
    | .error _ => .error (.comparisonError "Failed to generate comparison")
    | .ok dims =>
      match createTradeoffMatrix techs dims with
      | .error _ => .error (.comparisonError "Failed to generate comparison")
      | .ok matrix =>
        let compatibilityScores := techs.map (fun t =>
          match calculateCompatibility t wc with
          | .ok s => s
          | .error _ => fallbackCompatibilityScore t)
        let comparisonData := generateSideBySideData techs
        .ok ⟨techs.map (fun t => t.name), comparisonData, matrix, compatibilityScores, wc⟩

/-! ## recommendation_engine.py -/

/-- The default `CompatibilityScore` used for out-of-range list reads in
the model (all modelled reads are in range). -/
def emptyCompatibilityScore : CompatibilityScore := ⟨"", 0, ""⟩

/-- The Python dict comprehension `{tech.name: tech for tech in technologies}`
followed by a key read: the last binding for a name wins. -/
def pyDictLookup (techs : List TechnologyProfile) (name : String) : Option TechnologyProfile :=
  techs.reverse.find? (fun t => t.name = name)

/-- Python `sorted(compatibility_scores, key=lambda x: x.score, reverse=True)`
(recommendation_engine.py:106): a stable sort putting larger scores first. -/
def sortScoresDesc (scores : List CompatibilityScore) : List CompatibilityScore :=
  scores.insertionSort (fun a b => b.score ≤ a.score)

/-- The same stable descending sort carried out on the input positions:
`rankOrder scores` is `sortScoresDesc scores` with each element paired
with its index in the input list (used to state stability). -/
def rankOrder (scores : List CompatibilityScore) : List (ℕ × CompatibilityScore) :=
  scores.enum.insertionSort (fun a b => b.2.score ≤ a.2.score)

/-- `RecommendationEngine._calculate_confidence`
(recommendation_engine.py:132-200). -/
def calculateConfidence (compScore : CompatibilityScore)
    (allScores : List CompatibilityScore) (rank : ℕ) : ConfidenceLevel :=
  let score := compScore.score
  if rank = 0 ∧ allScores.length > 1 then
    let secondScore := (allScores.getD 1 emptyCompatibilityScore).score
    if secondScore > 0 then
      let percentageGap := (score - secondScore) / secondScore
      if percentageGap ≤ 2/100 then .LOW
      else if percentageGap ≤ 5/100 then
        if score ≥ 85/100 then .MEDIUM else .LOW
      else if percentageGap ≤ 15/100 then
        if score ≥ 8/10 then .HIGH else if score ≥ 6/10 then .MEDIUM else .LOW
      else
        if score ≥ 7/10 then .HIGH else if score ≥ 5/10 then .MEDIUM else .LOW
    else
      if score ≥ 8/10 then .HIGH else if score ≥ 6/10 then .MEDIUM else .LOW
  else
    if score ≥ 8/10 then .HIGH else if score ≥ 6/10 then .MEDIUM else .LOW

/-- `RecommendationEngine._generate_detailed_reasoning`
(recommendation_engine.py:202-262). -/
def generateDetailedReasoning (tech : TechnologyProfile) (compScore : CompatibilityScore)
    (wc : WeightedCriteria) (rank : ℕ) : String :=
  let rankPart :=
    if rank = 1 then "Top choice based on compatibility analysis."
    else if rank = 2 then "Strong second option with good alignment."
    else "Ranked #" ++ toString rank ++ " among the compared options."
  let scorePart := "Overall compatibility score: " ++ toString ⌊compScore.score * 100⌋ ++ "%."
  let strengths := (wc.dimension_weights.filterMap (fun p =>
    match tech.dimensions.lookup p.1 with
    | some ds => if p.2 > (1/5 : ℚ) ∧ ds.score ≥ 4 then some ("excellent " ++ p.1) else none
    | none => none))
  let weaknesses := (wc.dimension_weights.filterMap (fun p =>
    match tech.dimensions.lookup p.1 with
    | some ds => if p.2 > (1/5 : ℚ) ∧ ¬ ds.score ≥ 4 ∧ ds.score ≤ 2 then
        some ("limited " ++ p.1) else none
    | none => none))
  let parts := [rankPart, scorePart] ++
    (if strengths ≠ [] then
      ["Key strengths include " ++ String.intercalate ", " strengths ++ "."] else []) ++
    (if weaknesses ≠ [] then
      ["Areas of concern: " ++ String.intercalate ", " weaknesses ++ "."] else []) ++
    (match wc.priority_factors with
     | [] => []
     | top :: _ => ["Alignment with top priority (" ++ top ++ ") considered in ranking."]) ++
    (match tech.best_for with
     | [] => []
     | first :: _ => ["Best suited for: " ++ first ++ "."])
  String.intercalate " " parts

/-- One iteration of the ranking loop (recommendation_engine.py:110-128):
look the technology up in the dict (`KeyError` if absent), run the
pydantic field checks of `RankedChoice` (models.py:221-226), and build
the choice for the i-th sorted score. -/
def mkRankedChoice (techs : List TechnologyProfile) (wc : WeightedCriteria)
    (sortedScores : List CompatibilityScore) (ics : ℕ × CompatibilityScore) :
    Except String RankedChoice :=
  match pyDictLookup techs ics.2.technology with
  | none => .error ("KeyError: " ++ ics.2.technology)
  | some tech =>
    if ics.2.technology = "" then .error "technology must be non-empty"
    else if ¬ ((0 : ℚ) ≤ ics.2.score ∧ ics.2.score ≤ (1 : ℚ)) then
      .error "score must be between 0 and 1"
    else
      .ok ⟨ics.2.technology, ics.2.score,
           calculateConfidence ics.2 sortedScores ics.1,
           generateDetailedReasoning tech ics.2 wc (ics.1 + 1)⟩

/-- Sequential accumulation of the loop results, stopping at the first
raised exception. -/
def buildChoices (f : ℕ × CompatibilityScore → Except String RankedChoice) :
    List (ℕ × CompatibilityScore) → Except String (List RankedChoice)
  | [] => .ok []
  | ics :: rest =>
    match f ics with
    | .error e => .error e
    | .ok c =>
      match buildChoices f rest with
      | .error e => .error e
      | .ok cs => .ok (c :: cs)

/-- `RecommendationEngine._create_ranked_choices`
(recommendation_engine.py:85-130): sort the scores descending (stable)
and build one ranked choice per sorted score, in order. -/
def createRankedChoices (techs : List TechnologyProfile)
    (scores : List CompatibilityScore) (wc : WeightedCriteria) :
    Except String (List RankedChoice) :=
  let sortedScores := sortScoresDesc scores
  buildChoices (mkRankedChoice techs wc sortedScores) sortedScores.enum

/-- `RecommendationEngine._identify_decision_factors`
(recommendation_engine.py:264-311). -/
def identifyDecisionFactors (scores : List CompatibilityScore)
    (wc : WeightedCriteria) : List String :=
  let sortedWeights := sortDescByVal wc.dimension_weights
  let dimFactors := (sortedWeights.take 3).filterMap (fun p =>
    if p.2 > 15/100 then
      some (pyTitle p.1 ++ " requirements (weight: " ++ fmtPct1 p.2 ++ ")")
    else none)
  let priorityFactors := (wc.priority_factors.take 2).map
    (fun f => "Project priority: " ++ f)
  let closeFactors :=
    match sortScoresDesc scores with
    | s0 :: s1 :: _ => if s0.score - s1.score < 1/10 then
        ["Close competition between top options"] else []
    | _ => []
  let factors := dimFactors ++ priorityFactors ++ closeFactors
  if factors = [] then ["Overall compatibility with project requirements"] else factors

/-- `RecommendationEngine._generate_caveats`
(recommendation_engine.py:313-362), on the list of scores resolved
against their profiles (the dict lookups of the Python loop are resolved
up front; they fail on exactly the same inputs). -/
def generateCaveatsCore (resolved : List (CompatibilityScore × TechnologyProfile))
    (wc : WeightedCriteria) : List String :=
  let maxScore := listMax (resolved.map (fun r => r.1.score))
  (if maxScore < 6/10 then
    ["All options show moderate compatibility - consider additional requirements analysis"]
  else []) ++
  (resolved.filterMap (fun r =>
    if r.2.metadata.maturity = .EXPERIMENTAL ∧ r.1.score ≥ 7/10 then
      some (r.2.name ++ " is experimental technology - evaluate production readiness carefully")
    else none)) ++
  (if (wc.dimension_weights.filter (fun p => p.2 > 3/10)).length ≥ 3 then
    ["Multiple high-priority requirements may require trade-off decisions"]
  else []) ++
  (match sortScoresDesc (resolved.map (fun r => r.1)) with
   | s0 :: s1 :: _ =>
     if s0.score - s1.score < 5/100 then
       ["Top choices are very close - consider team preferences and existing expertise"]
     else []
   | _ => []) ++
  ["Recommendations may change if project requirements or constraints are updated"]

/-- The budget-focused scan of `_generate_alternative_scenarios`
(recommendation_engine.py:385-395): track the best cost-effectiveness
`5 - cost_score` seen so far (strictly improving updates only). -/
def budgetScanStep (st : ℚ × Option String) (r : CompatibilityScore × TechnologyProfile) :
    ℚ × Option String :=
  match r.2.dimensions.lookup "cost" with
  | some ds =>
    let costEffectiveness := 5 - ds.score
    if costEffectiveness > st.1 then (costEffectiveness, some r.2.name) else st
  | none => st

/-- The scalability-focused scan (recommendation_engine.py:405-414). -/
def scaleScanStep (st : ℚ × Option String) (r : CompatibilityScore × TechnologyProfile) :
    ℚ × Option String :=
  match r.2.dimensions.lookup "scalability" with
  | some ds => if ds.score > st.1 then (ds.score, some r.2.name) else st
  | none => st

/-- The simplicity-focused scan (recommendation_engine.py:424-433). -/
def simplicityScanStep (st : ℚ × Option String) (r : CompatibilityScore × TechnologyProfile) :
    ℚ × Option String :=
  match r.2.dimensions.lookup "complexity" with
  | some ds => if ds.score < st.1 then (ds.score, some r.2.name) else st
  | none => st

/-- The three scan loops of `_generate_alternative_scenarios`
(recommendation_engine.py:381-440), on resolved (score, profile) pairs;
returns the concatenated scenario list.  The suggested technology of the
second and third scenario is compared against `compatibility_scores[0]`,
the first entry of the input list. -/
def altScenarioList (resolved : List (CompatibilityScore × TechnologyProfile)) :
    List AlternativeScenario :=
  let headTech := (resolved.getD 0 (emptyCompatibilityScore, emptyProfile)).1.technology
  let budgetScan := resolved.foldl budgetScanStep (0, none)
  let scaleScan := resolved.foldl scaleScanStep (0, none)
  let simplicityScan := resolved.foldl simplicityScanStep (6, none)
  (match budgetScan.2 with
   | some t =>
     [⟨"If budget becomes the primary constraint", t,
       "This option offers the best cost-effectiveness for the project requirements"⟩]
   | none => []) ++
  (match scaleScan.2 with
   | some t =>
     if t ≠ headTech then
       [⟨"If scalability becomes the top priority", t,
         "This option provides the strongest scalability capabilities"⟩]
     else []
   | none => []) ++
  (match simplicityScan.2 with
   | some t =>
     if t ≠ headTech then
       [⟨"If team expertise is limited or learning curve is a concern", t,
         "This option offers the lowest complexity and easiest learning curve"⟩]
     else []
   | none => [])

/-- `RecommendationEngine._generate_alternative_scenarios`
(recommendation_engine.py:364-442): `None` when no scenario applies. -/
def altScenariosCore (resolved : List (CompatibilityScore × TechnologyProfile)) :
    Option (List AlternativeScenario) :=
  if altScenarioList resolved = [] then none else some (altScenarioList resolved)

/-- Resolve every compatibility score against the technology dict, as the
loops of `_generate_caveats` and `_generate_alternative_scenarios` do
(they read `tech_lookup[score.technology]` for every score and raise
`KeyError` on the first missing name). -/
def resolveScores (techs : List TechnologyProfile) (scores : List CompatibilityScore) :
    Except String (List (CompatibilityScore × TechnologyProfile)) :=
  scores.mapM (fun s =>
    match pyDictLookup techs s.technology with
    | some t => .ok (s, t)
    | none => .error ("KeyError: " ++ s.technology))

/-- The pydantic validators of `Recommendation` (models.py:236-268):
non-empty ranked choices and decision factors, unique technologies, and
scores equal to their own descending sort. -/
def mkRecommendation (rankedChoices : List RankedChoice) (keyDecisionFactors : List String)
    (caveats : List String) (alternativeScenarios : Option (List AlternativeScenario)) :
    Except String Recommendation :=
  if rankedChoices.length < 1 then .error "ranked_choices must have at least 1 item"
  else if keyDecisionFactors.length < 1 then .error "key_decision_factors must have at least 1 item"
  else if ¬ (rankedChoices.map (fun c => c.technology)).Nodup then
    .error "All technologies in ranking must be unique"
  else if rankedChoices.map (fun c => c.score) ≠
      (rankedChoices.map (fun c => c.score)).insertionSort (fun a b => b ≤ a) then
    .error "Technologies must be ranked by score (highest first)"
  else .ok ⟨rankedChoices, keyDecisionFactors, caveats, alternativeScenarios⟩

/-- `RecommendationEngine.generate_recommendation`
(recommendation_engine.py:35-83). -/
def generateRecommendation (techs : List TechnologyProfile)
    (scores : List CompatibilityScore) (wc : WeightedCriteria) :
    Except String Recommendation :=
  if techs = [] then .error "At least one technology must be provided"
  else if scores.length ≠ techs.length then
    .error "Number of compatibility scores must match number of technologies"
  else
    match createRankedChoices techs scores wc with
    | .error e => .error e
    | .ok rankedChoices =>
      match resolveScores techs scores with
      | .error e => .error e
      | .ok resolved =>
        mkRecommendation rankedChoices (identifyDecisionFactors scores wc)
          (generateCaveatsCore resolved wc) (altScenariosCore resolved)

/-! ## models.py / input_parser.py: custom-dimension validation -/

/-- `ComparisonRequest.validate_custom_dimensions` (models.py:135-145):
`set(v) & standard_dimensions`, a case-sensitive intersection. -/
def modelsValidateCustomDimensions (v : Option (List String)) :
    Except String (Option (List String)) :=
  match v with
  | none => .ok none
  | some l =>
    if l.any (fun d => d ∈ standardDimensions) then
      .error "Custom dimensions conflict with standard dimensions"
    else .ok (some l)

/-- `InputParser._validate_custom_dimensions` (input_parser.py:243-281):
the conflict check lowercases and strips each custom dimension before
comparing with the standard names (case-insensitive). -/
def parserValidateCustomDimensions (customDimensions : List String) : Option String :=
  if customDimensions.any (fun d => pyStrip (pyLower d) ∈ standardDimensions) then
    some "Custom dimensions conflict with standard dimensions"
  else if ¬ (customDimensions.map (fun d => pyStrip (pyLower d))).Nodup then
    some "Duplicate custom dimensions detected"
  else if customDimensions.any (fun d => pyStrip d = "") then
    some "Custom dimensions cannot be empty or contain only whitespace"
  else none

/-! ## analyzer.py: knowledge base and lookup -/

/-- The knowledge base built by `TechnologyAnalyzer._build_knowledge_base`
(analyzer.py:51-486), in dict insertion order. -/
def knowledgeBase : List (String × TechnologyProfile) :=
  [("REST",
    ⟨"REST", "API",
     [("cost", ⟨9/2, "Low implementation cost, uses standard HTTP infrastructure"⟩),
      ("scalability", ⟨4, "Scales well with caching and CDNs, stateless nature helps"⟩),
      ("complexity", ⟨9/2, "Simple to understand and implement, follows HTTP conventions"⟩),
      ("ecosystem", ⟨5, "Mature ecosystem with extensive tooling and library support"⟩),
      ("performance", ⟨7/2, "Good performance but can be chatty with multiple round trips"⟩)],
     ["Simple and intuitive HTTP-based design", "Excellent caching capabilities",
      "Wide tooling and client library support", "Stateless architecture enables easy scaling",
      "Human-readable URLs and responses"],
     ["Can require multiple requests for complex data", "Over-fetching or under-fetching of data",
      "Limited real-time capabilities without additional protocols",
      "Versioning can become complex over time"],
     ["CRUD operations and resource-based APIs", "Public APIs with broad client compatibility",
      "Simple to moderate complexity applications", "Teams new to API development",
      "Applications requiring strong caching"],
     ⟨.MATURE, "Standard", "W3C/IETF Standards"⟩⟩),
   ("GraphQL",
    ⟨"GraphQL", "API",
     [("cost", ⟨3, "Higher implementation complexity increases development costs"⟩),
      ("scalability", ⟨9/2, "Excellent query optimization and single endpoint scaling"⟩),
      ("complexity", ⟨5/2, "Steep learning curve, complex schema design and resolver logic"⟩),
      ("ecosystem", ⟨4, "Growing ecosystem with good tooling, but less mature than REST"⟩),
      ("performance", ⟨9/2, "Efficient data fetching, reduces over-fetching significantly"⟩)],
     ["Single endpoint for all data needs", "Eliminates over-fetching and under-fetching",
      "Strong type system and introspection", "Excellent developer tooling and debugging",
      "Real-time subscriptions built-in"],
     ["Complex caching strategies required", "Steep learning curve for teams",
      "Potential for expensive queries without proper limits",
      "Less suitable for simple CRUD operations"],
     ["Complex data relationships and queries", "Mobile applications with bandwidth constraints",
      "Rapid frontend development with changing requirements",
      "Applications requiring real-time features", "Teams with strong backend expertise"],
     ⟨.STABLE, "MIT", "GraphQL Foundation"⟩⟩),
   ("AWS Lambda",
    ⟨"AWS Lambda", "Cloud Service",
     [("cost", ⟨4, "Pay-per-execution model, cost-effective for variable workloads"⟩),
      ("scalability", ⟨5, "Automatic scaling to handle any load, virtually unlimited"⟩),
      ("complexity", ⟨3, "Serverless paradigm requires different thinking, cold start considerations"⟩),
      ("ecosystem", ⟨9/2, "Rich AWS ecosystem integration, extensive third-party support"⟩),
      ("performance", ⟨7/2, "Good performance but cold starts can impact latency"⟩)],
     ["No server management required", "Automatic scaling and high availability",
      "Pay only for actual execution time", "Seamless integration with AWS services",
      "Built-in monitoring and logging"],
     ["Cold start latency for infrequent functions", "15-minute maximum execution time limit",
      "Vendor lock-in to AWS ecosystem", "Complex debugging and local development",
      "Limited control over runtime environment"],
     ["Event-driven architectures", "Microservices with variable load",
      "Data processing and ETL pipelines", "API backends with unpredictable traffic",
      "Startups wanting to minimize infrastructure overhead"],
     ⟨.MATURE, "Proprietary", "Amazon Web Services"⟩⟩),
   ("EC2",
    ⟨"EC2", "Cloud Service",
     [("cost", ⟨3, "Predictable costs but requires capacity planning and optimization"⟩),
      ("scalability", ⟨4, "Good scaling with auto-scaling groups, but requires configuration"⟩),
      ("complexity", ⟨5/2, "Requires server management, security patching, and infrastructure knowledge"⟩),
      ("ecosystem", ⟨9/2, "Mature ecosystem with extensive AWS integration and tooling"⟩),
      ("performance", ⟨9/2, "Excellent performance with full control over compute resources"⟩)],
     ["Full control over server environment", "Consistent performance without cold starts",
      "Wide variety of instance types and configurations", "Mature tooling and deployment options",
      "No execution time limits"],
     ["Requires server management and maintenance", "Always-on costs even during idle periods",
      "Manual scaling configuration needed", "Security and patching responsibilities",
      "More complex deployment processes"],
     ["Long-running applications and services",
      "Applications requiring specific server configurations",
      "High-performance computing workloads", "Legacy applications with specific requirements",
      "Teams with strong DevOps capabilities"],
     ⟨.MATURE, "Proprietary", "Amazon Web Services"⟩⟩),
   ("React",
    ⟨"React", "Frontend Framework",
     [("cost", ⟨9/2, "Free and open-source with large talent pool reducing costs"⟩),
      ("scalability", ⟨4, "Scales well for large applications with proper architecture"⟩),
      ("complexity", ⟨7/2, "Moderate learning curve, requires understanding of modern JS concepts"⟩),
      ("ecosystem", ⟨5, "Largest ecosystem with extensive libraries and community support"⟩),
      ("performance", ⟨4, "Good performance with virtual DOM, requires optimization for large apps"⟩)],
     ["Huge community and ecosystem", "Excellent developer tools and debugging",
      "Component-based architecture promotes reusability",
      "Strong job market and talent availability", "Backed by Meta with long-term support"],
     ["Rapid ecosystem changes can cause fatigue", "JSX syntax has a learning curve",
      "Requires additional libraries for full functionality",
      "Can become complex with state management needs"],
     ["Large-scale single-page applications", "Teams with strong JavaScript expertise",
      "Projects requiring extensive third-party integrations",
      "Applications with complex user interfaces", "Startups needing fast development and hiring"],
     ⟨.MATURE, "MIT", "Meta (Facebook)"⟩⟩),
   ("Vue",
    ⟨"Vue", "Frontend Framework",
     [("cost", ⟨9/2, "Free and open-source with growing talent pool"⟩),
      ("scalability", ⟨4, "Scales well with good architecture, excellent for medium-large apps"⟩),
      ("complexity", ⟨9/2, "Gentle learning curve, intuitive template syntax"⟩),
      ("ecosystem", ⟨7/2, "Growing ecosystem but smaller than React, good official tooling"⟩),
      ("performance", ⟨9/2, "Excellent performance with efficient reactivity system"⟩)],
     ["Gentle learning curve and intuitive syntax", "Excellent official documentation and tooling",
      "Progressive adoption possible in existing projects", "Great performance out of the box",
      "Strong TypeScript support"],
     ["Smaller ecosystem compared to React", "Less job market demand",
      "Fewer large-scale enterprise examples", "Smaller community for complex problem solving"],
     ["Teams new to modern frontend frameworks", "Small to medium-sized applications",
      "Progressive enhancement of existing applications", "Rapid prototyping and development",
      "Projects prioritizing developer experience"],
     ⟨.STABLE, "MIT", "Evan You / Vue Team"⟩⟩),
   ("PostgreSQL",
    ⟨"PostgreSQL", "Database",
     [("cost", ⟨5, "Free and open-source with no licensing costs"⟩),
      ("scalability", ⟨4, "Good vertical scaling, horizontal scaling requires additional setup"⟩),
      ("complexity", ⟨3, "Rich feature set requires learning, but well-documented"⟩),
      ("ecosystem", ⟨9/2, "Mature ecosystem with extensive extensions and tooling"⟩),
      ("performance", ⟨9/2, "Excellent performance for complex queries and ACID compliance"⟩)],
     ["ACID compliance and strong consistency",
      "Rich data types including JSON, arrays, and custom types",
      "Powerful query capabilities and indexing", "Extensive extension ecosystem",
      "Strong community and enterprise support"],
     ["Can be overkill for simple applications", "Requires more memory than simpler databases",
      "Horizontal scaling requires additional complexity",
      "Steeper learning curve for advanced features"],
     ["Applications requiring complex queries and transactions",
      "Data integrity critical applications", "Applications with varied data types",
      "Analytics and reporting workloads", "Teams with database expertise"],
     ⟨.MATURE, "PostgreSQL License", "PostgreSQL Global Development Group"⟩⟩),
   ("MongoDB",
    ⟨"MongoDB", "Database",
     [("cost", ⟨7/2, "Free community version, but enterprise features require licensing"⟩),
      ("scalability", ⟨5, "Excellent horizontal scaling with built-in sharding"⟩),
      ("complexity", ⟨4, "Easy to get started, but requires understanding of NoSQL concepts"⟩),
      ("ecosystem", ⟨4, "Good ecosystem with strong driver support across languages"⟩),
      ("performance", ⟨4, "Good performance for read-heavy workloads and flexible schemas"⟩)],
     ["Flexible schema design and rapid development", "Excellent horizontal scaling capabilities",
      "Native JSON document storage", "Strong aggregation pipeline for analytics",
      "Good performance for read-heavy applications"],
     ["Eventual consistency can complicate some use cases",
      "Less mature tooling compared to relational databases",
      "Can lead to data duplication and inconsistency",
      "Memory usage can be higher than relational databases"],
     ["Rapid prototyping and agile development", "Applications with evolving data schemas",
      "Content management and catalog systems", "Real-time analytics and logging",
      "Microservices with independent data models"],
     ⟨.MATURE, "SSPL", "MongoDB Inc."⟩⟩)]

/-- The common-abbreviation table of `_is_abbreviation_match`
(analyzer.py:677-685). -/
def abbreviationTable : List (String × String) :=
  [("js", "javascript"), ("ts", "typescript"), ("py", "python"), ("pg", "postgresql"),
   ("mongo", "mongodb"), ("k8s", "kubernetes"), ("aws", "amazon web services")]

/-- `TechnologyAnalyzer._is_abbreviation_match` (analyzer.py:655-687). -/
def isAbbreviationMatch (ab fullName : String) : Bool :=
  if ab.length < 2 then false
  else
    let words := pySplitWs (pyLower fullName)
    let firstLetters : String := ⟨words.filterMap (fun w => w.data.head?)⟩
    (decide (words.length ≥ 2) && ab = firstLetters) ||
    (match abbreviationTable.lookup ab with
     | some full => substrB full.data (pyLower fullName).data
     | none => false)

/-- `TechnologyAnalyzer.get_technology_profile` (analyzer.py:488-524):
exact dict hit, then case-insensitive match, then substring /
abbreviation match against the lowercased, stripped input. -/
def getTechnologyProfile (technologyName : String) : Option TechnologyProfile :=
  if technologyName = "" ∨ pyStrip technologyName = "" then none
  else
    match knowledgeBase.lookup technologyName with
    | some p => some p
    | none =>
      match knowledgeBase.find? (fun e => pyLower e.1 = pyLower technologyName) with
      | some e => some e.2
      | none =>
        let normalizedInput := pyStrip (pyLower technologyName)
        match knowledgeBase.find? (fun e =>
          substrB normalizedInput.data (pyLower e.1).data ||
          substrB (pyLower e.1).data normalizedInput.data ||
          isAbbreviationMatch normalizedInput (pyLower e.1)) with
        | some e => some e.2
        | none => none

/-! ## Statement-level predicates -/

/-- The weight-output contract of §4.2 / §8 of the specification: the five
standard dimensions in dict order, a total within `1.0 ± 0.05`, and every
weight in `[0.05, 0.6]`. -/
def weightsInvariant (ws : List (String × ℚ)) : Prop :=
  ws.map Prod.fst = weightsDictOrder ∧
  (95/100 ≤ (ws.map (fun p => p.2)).sum ∧ (ws.map (fun p => p.2)).sum ≤ 105/100) ∧
  ∀ p ∈ ws, 5/100 ≤ p.2 ∧ p.2 ≤ 6/10

instance (ws : List (String × ℚ)) : Decidable (weightsInvariant ws) := by
  unfold weightsInvariant; infer_instance

end Referee

/- Batteries marks the rational-number operations `@[irreducible]`, which
blocks `decide`/`rfl` evaluation of the embedded functions on concrete
inputs; restore their reducibility (the kernel ignores reducibility
attributes, so this does not change what is provable). -/
unseal Rat.add Rat.mul Rat.sub Rat.inv

namespace Referee

/-! ## C1 -/

/-- When `_validate_weights` raises no error, the sum, maximum and minimum
checks it performs all passed. -/
theorem validateWeights_none_bounds (ws : List (String × ℚ)) (h : validateWeights ws = none) :
    (95/100 ≤ (ws.map (fun p => p.2)).sum ∧ (ws.map (fun p => p.2)).sum ≤ 105/100) ∧
    listMax (ws.map (fun p => p.2)) ≤ 6/10 ∧ 5/100 ≤ listMin (ws.map (fun p => p.2)) := by
  unfold validateWeights at h
  by_cases g1 : ws = []
  · rw [if_pos g1] at h; exact Option.noConfusion h
  rw [if_neg g1] at h
  by_cases g2 : ¬ (["cost", "scalability", "complexity", "ecosystem",
      "performance"].all (fun d => ws.any (fun p => p.1 = d))) = true
  · rw [if_pos g2] at h; exact Option.noConfusion h
  rw [if_neg g2] at h
  by_cases g3 : (ws.any (fun p => ¬ (0 ≤ p.2 ∧ p.2 ≤ 1))) = true
  · rw [if_pos g3] at h; exact Option.noConfusion h
  rw [if_neg g3] at h
  by_cases g4 : ¬ (95/100 ≤ (ws.map (fun p => p.2)).sum ∧
      (ws.map (fun p => p.2)).sum ≤ 105/100)
  · rw [if_pos g4] at h; exact Option.noConfusion h
  rw [if_neg g4] at h
  by_cases g5 : listMax (ws.map (fun p => p.2)) > 6/10
  · rw [if_pos g5] at h; exact Option.noConfusion h
  rw [if_neg g5] at h
  by_cases g6 : listMin (ws.map (fun p => p.2)) < 5/100
  · rw [if_pos g6] at h; exact Option.noConfusion h
  push_neg at g4 g5 g6
  exact ⟨g4, g5, g6⟩

/-- C1 (amended): whenever `process_requirements` returns, the returned
dimension weights cover exactly the five standard dimensions, sum to 1.0
within ±0.05, and every weight lies in [0.05, 0.6] — the weight validation
gates the successful return.  (The original claim's statement that this
holds for every allowed `team_size` up to 1000 is refuted by
`c1_counterexample`.) -/
theorem c1_weights_invariant_of_ok (req : ProjectRequirements) (wc : WeightedCriteria)
    (h : processRequirements req = .ok wc) : weightsInvariant wc.dimension_weights := by
  unfold processRequirements at h
  cases hv : validateRequirements req with
  | some msg => rw [hv] at h; simp at h
  | none =>
    rw [hv] at h
    dsimp only at h
    by_cases hc : detectRequirementConflicts req ≠ []
    · rw [if_pos hc] at h; simp at h
    · rw [if_neg hc] at h
      cases hw : validateWeights (calcDimensionWeights req).items with
      | some msg => rw [hw] at h; simp at h
      | none =>
        rw [hw] at h
        simp only [Except.ok.injEq] at h
        subst h
        have hb := validateWeights_none_bounds _ hw
        rcases hq : calcDimensionWeights req with ⟨c, s, x, e, p⟩
        rw [hq] at hb
        simp only [DimWeights.items, List.map_cons, List.map_nil] at hb
        have hmax : listMax [c, s, x, e, p] = max (max (max (max c s) x) e) p := rfl
        have hmin : listMin [c, s, x, e, p] = min (min (min (min c s) x) e) p := rfl
        rw [hmax, max_le_iff, max_le_iff, max_le_iff, max_le_iff] at hb
        rw [hmin, le_min_iff, le_min_iff, le_min_iff, le_min_iff] at hb
        obtain ⟨hsum, hle, hge⟩ := hb
        refine ⟨rfl, by simpa [DimWeights.items] using hsum, ?_⟩
        intro q hqm
        simp only [DimWeights.items, List.mem_cons, List.not_mem_nil, or_false] at hqm
        rcases hqm with rfl | rfl | rfl | rfl | rfl <;>
          exact ⟨by simp only []; linarith [hge.1.1.1.1, hge.1.1.1.2, hge.1.1.2, hge.1.2, hge.2],
                 by simp only []; linarith [hle.1.1.1.1, hle.1.1.1.2, hle.1.1.2, hle.1.2, hle.2]⟩

/-- Witness for C1: the default requirements (team_size 3, MEDIUM budget,
MODERATE timeline, MEDIUM scale, INTERMEDIATE expertise) succeed, and the
theorem yields the invariant for the returned weights. -/
theorem c1_witness :
    ∃ wc, processRequirements ⟨3, .MEDIUM, .MODERATE, .MEDIUM, .INTERMEDIATE⟩ = .ok wc ∧
      weightsInvariant wc.dimension_weights := by
  have he : processRequirements ⟨3, .MEDIUM, .MODERATE, .MEDIUM, .INTERMEDIATE⟩ =
      .ok ⟨[("cost", 1573/8700), ("scalability", 21/100), ("complexity", 21/100),
            ("ecosystem", 19/87), ("performance", 1573/8700)],
           ["Balanced cost considerations", "Reasonable learning curve acceptable",
            "Moderate scalability needs", "Performance considerations",
            "Good community support helpful"]⟩ := by rfl
  exact ⟨_, he, c1_weights_invariant_of_ok _ _ he⟩

/-- Counterexample to C1 as stated: the requirements (team_size 1000,
HIGH budget, FLEXIBLE timeline, MEDIUM scale, EXPERT expertise) pass
validation (`team_size ≤ 1000`) and trigger no conflict, yet
`process_requirements` does not return weights — the unbounded ecosystem
boost `team_size * 0.015` pushes the normalized ecosystem weight to
≈ 0.95 > 0.6, so weight validation raises and the call fails with
`RequirementsProcessingError`. -/
theorem c1_counterexample :
    validateRequirements ⟨1000, .HIGH, .FLEXIBLE, .MEDIUM, .EXPERT⟩ = none ∧
    detectRequirementConflicts ⟨1000, .HIGH, .FLEXIBLE, .MEDIUM, .EXPERT⟩ = [] ∧
    (calcDimensionWeights ⟨1000, .HIGH, .FLEXIBLE, .MEDIUM, .EXPERT⟩).ecosystem = 1516/1593 ∧
    processRequirements ⟨1000, .HIGH, .FLEXIBLE, .MEDIUM, .EXPERT⟩ =
      .error (.processing "Failed to process requirements: A dimension has excessive weight") :=
  ⟨rfl, rfl, by rfl, by rfl⟩

/-! ## C2 -/

/-- C2: for budget LOW, timeline TIGHT, scalability LARGE, team_size 3,
INTERMEDIATE expertise, the conflict "Low budget, large scalability needs,
and tight timeline create competing priorities" is detected; the CLI
requirements phase surfaces it and continues (bypassing conflict
detection), and the weight calculation still succeeds with weights
satisfying the output invariants. -/
theorem c2_conflict_surfaced_processing_succeeds :
    detectRequirementConflicts ⟨3, .LOW, .TIGHT, .LARGE, .INTERMEDIATE⟩ =
      ["Low budget, large scalability needs, and tight timeline create competing priorities"] ∧
    ∃ wc, runRequirementsPhase ⟨3, .LOW, .TIGHT, .LARGE, .INTERMEDIATE⟩ =
        .ok (["Low budget, large scalability needs, and tight timeline create competing priorities"],
             wc) ∧
      weightsInvariant wc.dimension_weights :=
  ⟨rfl,
   ⟨⟨[("cost", 70/349), ("scalability", 76/349), ("complexity", 70/349),
      ("ecosystem", 57/349), ("performance", 76/349)],
     ["Cost optimization and budget constraints", "Open-source solutions preferred",
      "Rapid development and deployment", "Minimal learning curve required",
      "Simple implementation approach", "Horizontal scalability requirements",
      "High performance optimization", "Enterprise-grade reliability",
      "Good community support helpful"]⟩,
    by rfl, by decide⟩⟩

/-! ## C3 -/

/-- The totals of the claim's description of `calculate_compatibility`:
for each dimension of positive weight `w`, a present dimension contributes
`clamp(s/5, 0, 1) * w` to `T` and `w` to `W`; a missing dimension
contributes `0.5 * w * 0.5` to `T` and `w * 0.5` to `W`. -/
def compatTotalsStep (tech : TechnologyProfile) (tw : ℚ × ℚ) (p : String × ℚ) : ℚ × ℚ :=
  if (0 : ℚ) < p.2 then
    match tech.dimensions.lookup p.1 with
    | some ds => (tw.1 + (max 0 (min 1 (ds.score / 5))) * p.2, tw.2 + p.2)
    | none => (tw.1 + (1/2) * p.2 * (1/2), tw.2 + p.2 * (1/2))
  else tw

/-- The claim-side running totals `(T, W)`. -/
def compatTotalsSpec (tech : TechnologyProfile) (ws : List (String × ℚ)) : ℚ × ℚ :=
  ws.foldl (compatTotalsStep tech) (0, 0)

/-- The engine's accumulator agrees with the claim-side totals (the engine
additionally carries the contribution records used for the reasoning). -/
theorem compatStep_fold_totals (tech : TechnologyProfile) :
    ∀ (ws : List (String × ℚ)) (a b : ℚ) (l : List DimContribution),
      ((ws.foldl (compatStep tech) (a, b, l)).1,
       (ws.foldl (compatStep tech) (a, b, l)).2.1) =
      ws.foldl (compatTotalsStep tech) (a, b) := by
  intro ws
  induction ws with
  | nil => intro a b l; rfl
  | cons p ps ih =>
    intro a b l
    simp only [List.foldl_cons]
    by_cases hp : p.2 ≤ 0
    · have e1 : compatStep tech (a, b, l) p = (a, b, l) := by
        simp [compatStep, hp]
      have e2 : compatTotalsStep tech (a, b) p = (a, b) := by
        simp [compatTotalsStep, not_lt.mpr hp]
      rw [e1, e2]
      exact ih a b l
    · have hp' : (0 : ℚ) < p.2 := not_le.mp hp
      cases hd : tech.dimensions.lookup p.1 with
      | some ds =>
        have e1 : compatStep tech (a, b, l) p =
            (a + (max 0 (min 1 (ds.score / 5))) * p.2, b + p.2,
             l ++ [⟨p.1, ds.score, p.2, (max 0 (min 1 (ds.score / 5))) * p.2⟩]) := by
          simp [compatStep, hp, hd]
        have e2 : compatTotalsStep tech (a, b) p =
            (a + (max 0 (min 1 (ds.score / 5))) * p.2, b + p.2) := by
          simp [compatTotalsStep, hp', hd]
        rw [e1, e2]
        exact ih _ _ _
      | none =>
        have e1 : compatStep tech (a, b, l) p =
            (a + (1/2) * p.2 * (1/2), b + p.2 * (1/2),
             l ++ [⟨p.1, 5/2, p.2, (1/2) * p.2 * (1/2)⟩]) := by
          simp [compatStep, hp, hd]
        have e2 : compatTotalsStep tech (a, b) p =
            (a + (1/2) * p.2 * (1/2), b + p.2 * (1/2)) := by
          simp [compatTotalsStep, hp', hd]
        rw [e1, e2]
        exact ih _ _ _

/-- C3: for every technology profile and criteria with non-empty
dimension weights, `calculate_compatibility` succeeds with score exactly
`clamp(T/W, 0, 1)` (where `T, W` follow the half-weighted-neutral rule for
missing dimensions), `0.5` when `W` ends at `0`; the score is always in
`[0, 1]`. -/
theorem c3_compatibility_score_clamped (tech : TechnologyProfile) (wc : WeightedCriteria)
    (h : wc.dimension_weights ≠ []) :
    ∃ cs, calculateCompatibility tech wc = .ok cs ∧
      cs.technology = tech.name ∧
      cs.score = (if 0 < (compatTotalsSpec tech wc.dimension_weights).2
                  then max 0 (min 1 ((compatTotalsSpec tech wc.dimension_weights).1 /
                                     (compatTotalsSpec tech wc.dimension_weights).2))
                  else 1/2) ∧
      0 ≤ cs.score ∧ cs.score ≤ 1 := by
  unfold calculateCompatibility
  rw [if_neg h]
  have key := compatStep_fold_totals tech wc.dimension_weights 0 0 []
  have hT : (wc.dimension_weights.foldl (compatStep tech) (0, 0, [])).1 =
      (compatTotalsSpec tech wc.dimension_weights).1 := by
    unfold compatTotalsSpec; rw [← key]
  have hW : (wc.dimension_weights.foldl (compatStep tech) (0, 0, [])).2.1 =
      (compatTotalsSpec tech wc.dimension_weights).2 := by
    unfold compatTotalsSpec; rw [← key]
  refine ⟨_, rfl, rfl, ?_, ?_, ?_⟩
  · simp only [hT, hW]
    by_cases hpos : 0 < (compatTotalsSpec tech wc.dimension_weights).2
    · rw [if_pos hpos, if_pos hpos]
    · rw [if_neg hpos, if_neg hpos]
      norm_num
  · exact le_max_left 0 _
  · exact max_le (by norm_num) (min_le_left 1 _)

/-- Witness for C3: a one-dimension profile against 50/50 weights where
the dimension "custom" is missing from the profile. -/
theorem c3_witness :
    ∃ cs, calculateCompatibility
        ⟨"REST", "API", [("cost", ⟨9/2, "cheap"⟩)], ["p"], ["c"], ["b"], ⟨.MATURE, "Standard", "W3C"⟩⟩
        ⟨[("cost", 1/2), ("custom", 1/2)], []⟩ = .ok cs ∧
      cs.technology = "REST" ∧
      cs.score = (if 0 < (compatTotalsSpec
          ⟨"REST", "API", [("cost", ⟨9/2, "cheap"⟩)], ["p"], ["c"], ["b"], ⟨.MATURE, "Standard", "W3C"⟩⟩
          [("cost", 1/2), ("custom", 1/2)]).2
        then max 0 (min 1 ((compatTotalsSpec
          ⟨"REST", "API", [("cost", ⟨9/2, "cheap"⟩)], ["p"], ["c"], ["b"], ⟨.MATURE, "Standard", "W3C"⟩⟩
          [("cost", 1/2), ("custom", 1/2)]).1 /
          (compatTotalsSpec
          ⟨"REST", "API", [("cost", ⟨9/2, "cheap"⟩)], ["p"], ["c"], ["b"], ⟨.MATURE, "Standard", "W3C"⟩⟩
          [("cost", 1/2), ("custom", 1/2)]).2))
        else 1/2) ∧
      0 ≤ cs.score ∧ cs.score ≤ 1 :=
  c3_compatibility_score_clamped _ _ (by decide)

/-! ## C4 -/

/-- The absolute-score confidence thresholds of the claim:
`≥ 0.8` HIGH, `≥ 0.6` MEDIUM, else LOW. -/
def absoluteConfidence (score : ℚ) : ConfidenceLevel :=
  if score ≥ 8/10 then .HIGH else if score ≥ 6/10 then .MEDIUM else .LOW

/-- The claim's description of `_calculate_confidence`: for the top-ranked
choice with at least two technologies, branch on whether the runner-up
score is 0; otherwise (and for non-top ranks or a single technology) use
the absolute thresholds. -/
def confidenceSpec (compScore : CompatibilityScore)
    (allScores : List CompatibilityScore) (rank : ℕ) : ConfidenceLevel :=
  if rank = 0 ∧ allScores.length > 1 then
    let second := (allScores.getD 1 emptyCompatibilityScore).score
    if second = 0 then absoluteConfidence compScore.score
    else
      let gap := (compScore.score - second) / second
      if gap ≤ 2/100 then .LOW
      else if gap ≤ 5/100 then
        if compScore.score ≥ 85/100 then .MEDIUM else .LOW
      else if gap ≤ 15/100 then
        if compScore.score ≥ 8/10 then .HIGH
        else if compScore.score ≥ 6/10 then .MEDIUM else .LOW
      else
        if compScore.score ≥ 7/10 then .HIGH
        else if compScore.score ≥ 5/10 then .MEDIUM else .LOW
  else absoluteConfidence compScore.score

/-- C4: on non-negative scores (the `CompatibilityScore` data-model range),
the engine's confidence computation agrees exactly with the claim's
percentage-gap description. -/
theorem c4_confidence_matches_spec (compScore : CompatibilityScore)
    (allScores : List CompatibilityScore) (rank : ℕ)
    (h : ∀ s ∈ allScores, 0 ≤ s.score) :
    calculateConfidence compScore allScores rank = confidenceSpec compScore allScores rank := by
  unfold calculateConfidence confidenceSpec absoluteConfidence
  by_cases h0 : rank = 0 ∧ allScores.length > 1
  · rw [if_pos h0, if_pos h0]
    have hsec : 0 ≤ (allScores.getD 1 emptyCompatibilityScore).score := by
      have h1 : 1 < allScores.length := h0.2
      rw [List.getD_eq_getElem allScores emptyCompatibilityScore h1]
      exact h _ (List.getElem_mem h1)
    by_cases hpos : (allScores.getD 1 emptyCompatibilityScore).score > 0
    · rw [if_pos hpos, if_neg (ne_of_gt hpos)]
    · rw [if_neg hpos, if_pos (le_antisymm (not_lt.mp hpos) hsec)]
  · rw [if_neg h0, if_neg h0]

/-- Witness for C4: a top-ranked 0.9 against a runner-up 0.5 (an 80% gap,
clear lead) — both sides give HIGH. -/
theorem c4_witness :
    calculateConfidence ⟨"A", 9/10, "r"⟩ [⟨"A", 9/10, "r"⟩, ⟨"B", 1/2, "r"⟩] 0 =
      confidenceSpec ⟨"A", 9/10, "r"⟩ [⟨"A", 9/10, "r"⟩, ⟨"B", 1/2, "r"⟩] 0 :=
  c4_confidence_matches_spec _ _ _ (by decide)

/-! ## C8 -/

/-- Counterexample to C8 as stated: the custom dimension "Cost" (a case
variant of the standard "cost") is NOT rejected by the collision checks
the claim points at — both `ComparisonRequest.validate_custom_dimensions`
and `_get_comparison_dimensions` intersect case-sensitively, so "Cost"
passes validation and is appended to the comparison dimensions. -/
theorem c8_counterexample :
    modelsValidateCustomDimensions (some ["Cost"]) = .ok (some ["Cost"]) ∧
    getComparisonDimensions (some ["Cost"]) = .ok (standardDimensions ++ ["Cost"]) :=
  ⟨rfl, rfl⟩

/-- C8 (amended): the case-insensitive rejection exists only in the CLI
input layer — `InputParser._validate_custom_dimensions` lowercases and
strips each custom dimension before the collision check, so any case
variant of a standard name is rejected there. -/
theorem c8_parser_collision_case_insensitive (dims : List String)
    (h : ∃ d ∈ dims, pyStrip (pyLower d) ∈ standardDimensions) :
    parserValidateCustomDimensions dims =
      some "Custom dimensions conflict with standard dimensions" := by
  unfold parserValidateCustomDimensions
  rw [if_pos]
  rw [List.any_eq_true]
  obtain ⟨d, hd, hmem⟩ := h
  exact ⟨d, hd, by simpa using hmem⟩

/-- Witness for C8's amended theorem at the claim's own example "Cost". -/
theorem c8_witness :
    parserValidateCustomDimensions ["Cost"] =
      some "Custom dimensions conflict with standard dimensions" :=
  c8_parser_collision_case_insensitive ["Cost"] ⟨"Cost", by decide, by decide⟩

/-! ## Association-list lemmas for the dict model -/

/-- A successful dict read means the key occurs among the keys. -/
theorem lookup_isSome_mem_fst {β : Type} {l : List (String × β)} {k : String}
    (h : (l.lookup k).isSome) : k ∈ l.map Prod.fst := by
  induction l with
  | nil => simp [List.lookup] at h
  | cons e t ih =>
    rw [List.lookup] at h
    cases hk : k == e.1 with
    | true =>
      have hke : k = e.1 := eq_of_beq hk
      simp [hke]
    | false =>
      rw [hk] at h
      dsimp only at h
      simp only [List.map_cons, List.mem_cons]
      exact Or.inr (ih h)

/-- A successful dict read returns one of the stored values. -/
theorem lookup_mem_values {β : Type} {l : List (String × β)} {k : String} {v : β}
    (h : l.lookup k = some v) : v ∈ l.map Prod.snd := by
  induction l with
  | nil => simp [List.lookup] at h
  | cons e t ih =>
    rw [List.lookup] at h
    cases hk : k == e.1 with
    | true =>
      rw [hk] at h
      dsimp only at h
      injection h with h
      subst h
      exact List.mem_map_of_mem _ (List.mem_cons_self e t)
    | false =>
      rw [hk] at h
      dsimp only at h
      simp only [List.map_cons, List.mem_cons]
      exact Or.inr (ih h)

/-! ## C9 -/

/-- C9: for 2–5 technology profiles satisfying the `TechnologyProfile`
data-model invariant (all five standard dimensions present) and criteria
with non-empty dimension weights, the input validation passes with no
error at all, and `generate_comparison` can never fail with
`InsufficientDataError` — the fewer-than-3-known-dimensions branch is
unreachable under the profile invariant. -/
theorem c9_no_insufficient_data (techs : List TechnologyProfile) (wc : WeightedCriteria)
    (customDimensions : Option (List String))
    (h2 : 2 ≤ techs.length) (h5 : techs.length ≤ 5)
    (hw : wc.dimension_weights ≠ [])
    (hinv : ∀ t ∈ techs, ∀ d ∈ standardDimensions, (t.dimensions.lookup d).isSome) :
    validateComparisonInputs techs wc = none ∧
    ∀ msg, generateComparison techs wc customDimensions ≠ .error (.insufficientData msg) := by
  have hdims : ∀ t ∈ techs, ¬ t.dimensions.length < 3 := by
    intro t ht
    have hsub : standardDimensions ⊆ t.dimensions.map Prod.fst := by
      intro d hd
      exact lookup_isSome_mem_fst (hinv t ht d hd)
    have hlen : standardDimensions.length ≤ (t.dimensions.map Prod.fst).length :=
      (List.Nodup.subperm (by decide) hsub).length_le
    rw [List.length_map] at hlen
    simp only [standardDimensions, List.length_cons, List.length_nil] at hlen
    omega
  have hne : techs ≠ [] := by
    intro he; rw [he] at h2; simp at h2
  have hval : validateComparisonInputs techs wc = none := by
    unfold validateComparisonInputs
    rw [if_neg hne, if_neg (by omega), if_neg (by omega), if_neg hw]
    have hfil : techs.filter (fun t => t.dimensions.length < 3) = [] := by
      rw [List.filter_eq_nil_iff]
      intro t ht
      simpa using hdims t ht
    rw [hfil]
    simp
  refine ⟨hval, ?_⟩
  intro msg
  unfold generateComparison
  rw [hval]
  cases hd : getComparisonDimensions customDimensions with
  | error e => simp [hd]
  | ok dims =>
    simp only [hd]
    cases hm : createTradeoffMatrix techs dims with
    | error e => simp [hm]
    | ok matrix => simp [hm]

/-- Witness for C9: comparing the REST and GraphQL knowledge-base profiles
under a one-dimension weighting never yields `InsufficientDataError`. -/
theorem c9_witness :
    validateComparisonInputs [(knowledgeBase.getD 0 ("", emptyProfile)).2,
      (knowledgeBase.getD 1 ("", emptyProfile)).2] ⟨[("cost", 1)], []⟩ = none ∧
    ∀ msg, generateComparison [(knowledgeBase.getD 0 ("", emptyProfile)).2,
        (knowledgeBase.getD 1 ("", emptyProfile)).2] ⟨[("cost", 1)], []⟩ none ≠
      .error (.insufficientData msg) :=
  c9_no_insufficient_data _ _ _ (by decide) (by decide) (by decide) (by decide)

/-! ## C10 -/

/-- C10: every non-blank query that, after lowercasing and stripping, is
in a substring relation (either direction) with some knowledge-base name
resolves to a knowledge-base profile rather than absent, so
fallback-profile synthesis is never reached for such names. -/
theorem c10_substring_queries_resolve (q : String) (hq : pyStrip q ≠ "")
    (h : ∃ n ∈ knowledgeBase.map Prod.fst,
        substrB (pyLower n).data (pyStrip (pyLower q)).data = true ∨
        substrB (pyStrip (pyLower q)).data (pyLower n).data = true) :
    ∃ p, getTechnologyProfile q = some p ∧ p ∈ knowledgeBase.map Prod.snd := by
  unfold getTechnologyProfile
  have hq' : ¬ (q = "" ∨ pyStrip q = "") := by
    push_neg
    refine ⟨?_, hq⟩
    intro he
    exact hq (by rw [he]; rfl)
  rw [if_neg hq']
  cases he : knowledgeBase.lookup q with
  | some p => exact ⟨p, rfl, lookup_mem_values he⟩
  | none =>
    cases hci : knowledgeBase.find? (fun e => pyLower e.1 = pyLower q) with
    | some e =>
      exact ⟨e.2, rfl, List.mem_map_of_mem _ (List.mem_of_find?_eq_some hci)⟩
    | none =>
      obtain ⟨n, hn, hor⟩ := h
      obtain ⟨entry, hent, hfst⟩ := List.mem_map.mp hn
      have hsome : (knowledgeBase.find? (fun e =>
          substrB (pyStrip (pyLower q)).data (pyLower e.1).data ||
          substrB (pyLower e.1).data (pyStrip (pyLower q)).data ||
          isAbbreviationMatch (pyStrip (pyLower q)) (pyLower e.1))).isSome := by
        rw [List.find?_isSome]
        refine ⟨entry, hent, ?_⟩
        rw [hfst]
        rcases hor with h1 | h1 <;> simp [h1]
      obtain ⟨e', he'⟩ := Option.isSome_iff_exists.mp hsome
      refine ⟨e'.2, ?_, List.mem_map_of_mem _ (List.mem_of_find?_eq_some he')⟩
      simp only [he, hci]
      rw [he']

/-- Witness for C10 at the claim's own example: "unrest" contains the
knowledge-base name "rest" (lowercased "REST") and resolves to a
knowledge-base profile. -/
theorem c10_witness :
    ∃ p, getTechnologyProfile "unrest" = some p ∧ p ∈ knowledgeBase.map Prod.snd :=
  c10_substring_queries_resolve "unrest" (by decide)
    ⟨"REST", by decide, Or.inl (by decide)⟩

/-! ## C5 -/

/-- The stability order for the descending sort: an element precedes
another exactly when its score is larger, or the scores tie and it came
earlier in the input. -/
def rankedBefore (a b : ℕ × CompatibilityScore) : Prop :=
  b.2.score < a.2.score ∨ (a.2.score = b.2.score ∧ a.1 < b.1)

/-- Inserting an element whose input position is later than everything in
an already stably-ordered list keeps the list stably ordered. -/
theorem orderedInsert_pairwise_rankedBefore (x : ℕ × CompatibilityScore)
    (l : List (ℕ × CompatibilityScore)) (hl : l.Pairwise rankedBefore)
    (hidx : ∀ y ∈ l, x.1 < y.1) :
    (l.orderedInsert (fun a b => b.2.score ≤ a.2.score) x).Pairwise rankedBefore := by
  induction l with
  | nil => simp [List.orderedInsert, List.pairwise_singleton]
  | cons y ys ih =>
    rw [List.orderedInsert]
    by_cases hxy : y.2.score ≤ x.2.score
    · rw [if_pos hxy]
      refine List.pairwise_cons.mpr ⟨?_, hl⟩
      intro z hz
      have hzx : z.2.score ≤ x.2.score := by
        rcases List.mem_cons.mp hz with rfl | hzys
        · exact hxy
        · rcases (List.pairwise_cons.mp hl).1 z hzys with h1 | h1
          · linarith
          · linarith [h1.1]
      rcases lt_or_eq_of_le hzx with h1 | h1
      · exact Or.inl h1
      · exact Or.inr ⟨h1.symm, hidx z hz⟩
    · rw [if_neg hxy]
      refine List.pairwise_cons.mpr
        ⟨?_, ih (List.pairwise_cons.mp hl).2
             (fun y' hy' => hidx y' (List.mem_cons_of_mem _ hy'))⟩
      intro z hz
      rcases (List.mem_orderedInsert _).mp hz with rfl | hzys
      · exact Or.inl (not_le.mp hxy)
      · exact (List.pairwise_cons.mp hl).1 z hzys

/-- The stable descending insertion sort of a list with strictly
increasing input positions is ordered by `rankedBefore`. -/
theorem insertionSort_pairwise_rankedBefore (l : List (ℕ × CompatibilityScore))
    (h : l.Pairwise (fun a b => a.1 < b.1)) :
    (l.insertionSort (fun a b => b.2.score ≤ a.2.score)).Pairwise rankedBefore := by
  induction l with
  | nil => simp
  | cons x xs ih =>
    rw [List.insertionSort]
    exact orderedInsert_pairwise_rankedBefore x _ (ih (List.pairwise_cons.mp h).2)
      (fun y hy => (List.pairwise_cons.mp h).1 y ((List.mem_insertionSort _).mp hy))

/-- Enumeration produces strictly increasing positions. -/
theorem enum_pairwise_fst_lt {α : Type} (l : List α) :
    l.enum.Pairwise (fun a b => a.1 < b.1) := by
  have h1 : (l.enum.map Prod.fst).Pairwise (fun a b => a < b) := by
    rw [List.enum_map_fst]
    exact List.pairwise_lt_range _
  exact List.pairwise_map.mp h1

/-- The instrumented sort is ordered by `rankedBefore`: scores descend,
and ties keep the input order. -/
theorem rankOrder_pairwise (scores : List CompatibilityScore) :
    (rankOrder scores).Pairwise rankedBefore :=
  insertionSort_pairwise_rankedBefore _ (enum_pairwise_fst_lt scores)

/-- Dropping the instrumentation indices gives exactly the engine's
stable sort of the scores. -/
theorem rankOrder_map_snd (scores : List CompatibilityScore) :
    (rankOrder scores).map Prod.snd = sortScoresDesc scores := by
  unfold rankOrder sortScoresDesc
  rw [List.map_insertionSort (fun a b : ℕ × CompatibilityScore => b.2.score ≤ a.2.score)
    (fun a b : CompatibilityScore => b.score ≤ a.score) Prod.snd scores.enum
    (fun a _ b _ => Iff.rfl)]
  rw [List.enum_map_snd]

/-- Successful choice construction preserves each element's technology
and score. -/
theorem buildChoices_map_tech_score (f : ℕ × CompatibilityScore → Except String RankedChoice)
    (hf : ∀ ics c, f ics = .ok c → c.technology = ics.2.technology ∧ c.score = ics.2.score) :
    ∀ (l : List (ℕ × CompatibilityScore)) (out : List RankedChoice),
      buildChoices f l = .ok out →
      out.map (fun c => (c.technology, c.score)) =
        l.map (fun ics => (ics.2.technology, ics.2.score)) := by
  intro l
  induction l with
  | nil =>
    intro out h
    unfold buildChoices at h
    injection h with h
    subst h
    rfl
  | cons ics rest ih =>
    intro out h
    unfold buildChoices at h
    cases hc : f ics with
    | error e => rw [hc] at h; exact Except.noConfusion h
    | ok c =>
      rw [hc] at h
      dsimp only at h
      cases hr : buildChoices f rest with
      | error e => rw [hr] at h; exact Except.noConfusion h
      | ok cs =>
        rw [hr] at h
        dsimp only at h
        injection h with h
        subst h
        obtain ⟨ht, hs⟩ := hf ics c hc
        simp only [List.map_cons]
        rw [ht, hs, ih cs hr]

/-- `mkRankedChoice` copies the technology and score of its input. -/
theorem mkRankedChoice_tech_score (techs : List TechnologyProfile) (wc : WeightedCriteria)
    (ss : List CompatibilityScore) (ics : ℕ × CompatibilityScore) (c : RankedChoice)
    (h : mkRankedChoice techs wc ss ics = .ok c) :
    c.technology = ics.2.technology ∧ c.score = ics.2.score := by
  unfold mkRankedChoice at h
  cases hl : pyDictLookup techs ics.2.technology with
  | none => rw [hl] at h; exact Except.noConfusion h
  | some tech =>
    rw [hl] at h
    dsimp only at h
    by_cases h1 : ics.2.technology = ""
    · rw [if_pos h1] at h; exact Except.noConfusion h
    · rw [if_neg h1] at h
      by_cases h2 : ¬ ((0 : ℚ) ≤ ics.2.score ∧ ics.2.score ≤ (1 : ℚ))
      · rw [if_pos h2] at h; exact Except.noConfusion h
      · rw [if_neg h2] at h
        simp only [Except.ok.injEq] at h
        subst h
        exact ⟨rfl, rfl⟩

instance : IsTotal ℚ (fun a b => b ≤ a) := ⟨fun a b => le_total b a⟩

instance : IsTrans ℚ (fun a b => b ≤ a) := ⟨fun _ _ _ h1 h2 => le_trans h2 h1⟩

/-- Inverting `mkRecommendation`: a successful construction returns its
inputs and certifies the two ranked-choices validators. -/
theorem mkRecommendation_ok (rc : List RankedChoice) (kdf caveats : List String)
    (alt : Option (List AlternativeScenario)) (rec : Recommendation)
    (h : mkRecommendation rc kdf caveats alt = .ok rec) :
    rec.ranked_choices = rc ∧
    (rc.map (fun c => c.technology)).Nodup ∧
    rc.map (fun c => c.score) =
      (rc.map (fun c => c.score)).insertionSort (fun a b => b ≤ a) := by
  unfold mkRecommendation at h
  by_cases h1 : rc.length < 1
  · rw [if_pos h1] at h; exact Except.noConfusion h
  rw [if_neg h1] at h
  by_cases h2 : kdf.length < 1
  · rw [if_pos h2] at h; exact Except.noConfusion h
  rw [if_neg h2] at h
  by_cases h3 : ¬ (rc.map (fun c => c.technology)).Nodup
  · rw [if_pos h3] at h; exact Except.noConfusion h
  rw [if_neg h3] at h
  by_cases h4 : rc.map (fun c => c.score) ≠
      (rc.map (fun c => c.score)).insertionSort (fun a b => b ≤ a)
  · rw [if_pos h4] at h; exact Except.noConfusion h
  rw [if_neg h4] at h
  simp only [Except.ok.injEq] at h
  subst h
  exact ⟨rfl, not_not.mp h3, not_not.mp h4⟩

/-- C5: whenever `generate_recommendation` returns, its ranked choices are
the stable descending sort of the input compatibility-score list — scores
are non-increasing, tied scores keep their input order (`rankOrder`
pairs each score with its input position), and every technology appears
at most once. -/
theorem c5_ranking_sorted_stable_unique (techs : List TechnologyProfile)
    (scores : List CompatibilityScore) (wc : WeightedCriteria) (rec : Recommendation)
    (h : generateRecommendation techs scores wc = .ok rec) :
    rec.ranked_choices.map (fun c => (c.technology, c.score)) =
      (rankOrder scores).map (fun p => (p.2.technology, p.2.score)) ∧
    (rankOrder scores).Pairwise rankedBefore ∧
    rec.ranked_choices.Pairwise (fun a b => b.score ≤ a.score) ∧
    (rec.ranked_choices.map (fun c => c.technology)).Nodup := by
  unfold generateRecommendation at h
  by_cases h0 : techs = []
  · rw [if_pos h0] at h; exact Except.noConfusion h
  rw [if_neg h0] at h
  by_cases h1 : scores.length ≠ techs.length
  · rw [if_pos h1] at h; exact Except.noConfusion h
  rw [if_neg h1] at h
  cases hrc : createRankedChoices techs scores wc with
  | error e => rw [hrc] at h; exact Except.noConfusion h
  | ok rc =>
    rw [hrc] at h
    dsimp only at h
    cases hres : resolveScores techs scores with
    | error e => rw [hres] at h; exact Except.noConfusion h
    | ok resolved =>
      rw [hres] at h
      dsimp only at h
      obtain ⟨hrec, hnd, hsorted⟩ := mkRecommendation_ok _ _ _ _ _ h
      rw [hrec]
      have hmap : rc.map (fun c => (c.technology, c.score)) =
          (sortScoresDesc scores).enum.map (fun ics => (ics.2.technology, ics.2.score)) := by
        unfold createRankedChoices at hrc
        exact buildChoices_map_tech_score _
          (fun ics c hc => mkRankedChoice_tech_score _ _ _ _ _ hc) _ _ hrc
      refine ⟨?_, rankOrder_pairwise scores, ?_, hnd⟩
      · rw [hmap]
        have hr : (rankOrder scores).map (fun p => (p.2.technology, p.2.score)) =
            (sortScoresDesc scores).map (fun s => (s.technology, s.score)) := by
          rw [show (fun p : ℕ × CompatibilityScore => (p.2.technology, p.2.score)) =
            (fun s : CompatibilityScore => (s.technology, s.score)) ∘ Prod.snd from rfl,
            ← List.map_map, rankOrder_map_snd]
        have he : ((sortScoresDesc scores).enum.map
            (fun ics : ℕ × CompatibilityScore => (ics.2.technology, ics.2.score))) =
            (sortScoresDesc scores).map (fun s => (s.technology, s.score)) := by
          rw [show (fun ics : ℕ × CompatibilityScore => (ics.2.technology, ics.2.score)) =
            (fun s : CompatibilityScore => (s.technology, s.score)) ∘ Prod.snd from rfl,
            ← List.map_map, List.enum_map_snd]
        rw [hr, he]
      · have hs : List.Sorted (fun a b => b ≤ a) (rc.map (fun c => c.score)) := by
          rw [hsorted]
          exact List.sorted_insertionSort _ _
        exact List.pairwise_map.mp hs

/-- Witness for C5: a concrete two-technology recommendation (with a tie
broken by input order) satisfies all three ranking properties. -/
theorem c5_witness :
    ∃ rec, generateRecommendation
        [⟨"A", "cat", [("cost", ⟨4, "ca"⟩), ("scalability", ⟨3, "sa"⟩), ("complexity", ⟨2, "xa"⟩)],
          ["pa"], ["na"], ["ba"], ⟨.MATURE, "MIT", "ma"⟩⟩,
         ⟨"B", "cat", [("cost", ⟨3, "cb"⟩), ("scalability", ⟨4, "sb"⟩), ("complexity", ⟨3, "xb"⟩)],
          ["pb"], ["nb"], ["bb"], ⟨.STABLE, "MIT", "mb"⟩⟩]
        [⟨"A", 3/5, "ra"⟩, ⟨"B", 4/5, "rb"⟩] ⟨[("cost", 1)], ["pri"]⟩ = .ok rec ∧
      rec.ranked_choices.map (fun c => (c.technology, c.score)) =
        (rankOrder [⟨"A", 3/5, "ra"⟩, ⟨"B", 4/5, "rb"⟩]).map
          (fun p => (p.2.technology, p.2.score)) ∧
      (rankOrder [⟨"A", 3/5, "ra"⟩, ⟨"B", 4/5, "rb"⟩]).Pairwise rankedBefore ∧
      rec.ranked_choices.Pairwise (fun a b => b.score ≤ a.score) ∧
      (rec.ranked_choices.map (fun c => c.technology)).Nodup := by
  cases h : generateRecommendation
      [⟨"A", "cat", [("cost", ⟨4, "ca"⟩), ("scalability", ⟨3, "sa"⟩), ("complexity", ⟨2, "xa"⟩)],
        ["pa"], ["na"], ["ba"], ⟨.MATURE, "MIT", "ma"⟩⟩,
       ⟨"B", "cat", [("cost", ⟨3, "cb"⟩), ("scalability", ⟨4, "sb"⟩), ("complexity", ⟨3, "xb"⟩)],
        ["pb"], ["nb"], ["bb"], ⟨.STABLE, "MIT", "mb"⟩⟩]
      [⟨"A", 3/5, "ra"⟩, ⟨"B", 4/5, "rb"⟩] ⟨[("cost", 1)], ["pri"]⟩ with
  | error e =>
    have hok : (generateRecommendation
        [⟨"A", "cat", [("cost", ⟨4, "ca"⟩), ("scalability", ⟨3, "sa"⟩), ("complexity", ⟨2, "xa"⟩)],
          ["pa"], ["na"], ["ba"], ⟨.MATURE, "MIT", "ma"⟩⟩,
         ⟨"B", "cat", [("cost", ⟨3, "cb"⟩), ("scalability", ⟨4, "sb"⟩), ("complexity", ⟨3, "xb"⟩)],
          ["pb"], ["nb"], ["bb"], ⟨.STABLE, "MIT", "mb"⟩⟩]
        [⟨"A", 3/5, "ra"⟩, ⟨"B", 4/5, "rb"⟩] ⟨[("cost", 1)], ["pri"]⟩).isOk = true := by rfl
    rw [h] at hok
    simp [Except.isOk, Except.toBool] at hok
  | ok rec => exact ⟨rec, rfl, c5_ranking_sorted_stable_unique _ _ _ _ h⟩

/-! ## C6 -/

/-- The budget scan ends with a technology exactly when the carried
option started non-empty or some element strictly beats the carried best
cost-effectiveness. -/
theorem budgetScan_isSome (l : List (CompatibilityScore × TechnologyProfile)) :
    ∀ (b : ℚ) (o : Option String),
      ((l.foldl budgetScanStep (b, o)).2.isSome = true ↔
        o.isSome = true ∨
          ∃ r ∈ l, ∃ ds, r.2.dimensions.lookup "cost" = some ds ∧ b < 5 - ds.score) := by
  induction l with
  | nil => intro b o; simp
  | cons r rest ih =>
    intro b o
    rw [List.foldl_cons]
    cases hd : r.2.dimensions.lookup "cost" with
    | none =>
      have hstep : budgetScanStep (b, o) r = (b, o) := by
        simp [budgetScanStep, hd]
      rw [hstep, ih]
      constructor
      · rintro (h | ⟨r', hr', hds⟩)
        · exact Or.inl h
        · exact Or.inr ⟨r', List.mem_cons_of_mem _ hr', hds⟩
      · rintro (h | ⟨r', hr', ds, hds, hlt⟩)
        · exact Or.inl h
        · rcases List.mem_cons.mp hr' with rfl | hmem
          · rw [hd] at hds; exact Option.noConfusion hds
          · exact Or.inr ⟨r', hmem, ds, hds, hlt⟩
    | some ds =>
      by_cases hgt : 5 - ds.score > b
      · have hstep : budgetScanStep (b, o) r = (5 - ds.score, some r.2.name) := by
          simp [budgetScanStep, hd, hgt]
        rw [hstep, ih]
        constructor
        · intro _
          exact Or.inr ⟨r, List.mem_cons_self _ _, ds, hd, hgt⟩
        · intro _
          exact Or.inl rfl
      · have hstep : budgetScanStep (b, o) r = (b, o) := by
          simp only [budgetScanStep, hd]
          rw [if_neg hgt]
        rw [hstep, ih]
        constructor
        · rintro (h | ⟨r', hr', hds⟩)
          · exact Or.inl h
          · exact Or.inr ⟨r', List.mem_cons_of_mem _ hr', hds⟩
        · rintro (h | ⟨r', hr', ds', hds, hlt⟩)
          · exact Or.inl h
          · rcases List.mem_cons.mp hr' with rfl | hmem
            · rw [hd] at hds
              injection hds with hds
              subst hds
              exact absurd hlt hgt
            · exact Or.inr ⟨r', hmem, ds', hds, hlt⟩

/-- `altScenarioList` written out as the three concatenated conditional
segments (definitional). -/
theorem altScenarioList_eq (resolved : List (CompatibilityScore × TechnologyProfile)) :
    altScenarioList resolved =
      (match (resolved.foldl budgetScanStep (0, none)).2 with
       | some t => [⟨"If budget becomes the primary constraint", t,
           "This option offers the best cost-effectiveness for the project requirements"⟩]
       | none => []) ++
      (match (resolved.foldl scaleScanStep (0, none)).2 with
       | some t =>
         if t ≠ (resolved.getD 0 (emptyCompatibilityScore, emptyProfile)).1.technology then
           [⟨"If scalability becomes the top priority", t,
             "This option provides the strongest scalability capabilities"⟩]
         else []
       | none => []) ++
      (match (resolved.foldl simplicityScanStep (6, none)).2 with
       | some t =>
         if t ≠ (resolved.getD 0 (emptyCompatibilityScore, emptyProfile)).1.technology then
           [⟨"If team expertise is limited or learning curve is a concern", t,
             "This option offers the lowest complexity and easiest learning curve"⟩]
         else []
       | none => []) := rfl

/-- C6 (amended): in `_generate_alternative_scenarios`, the cost-focused
scenario is included exactly when some compared technology has a cost
dimension with score strictly below 5 (so a positive cost-effectiveness
`5 - cost`); the scalability- and simplicity-focused scenarios always
suggest a technology different from the FIRST entry of the
compatibility-score list (`compatibility_scores[0]`), which equals the
top-scored pick only when that list is sorted. -/
theorem c6_alt_scenarios (resolved : List (CompatibilityScore × TechnologyProfile)) :
    ((∃ sc ∈ altScenarioList resolved,
        sc.scenario = "If budget becomes the primary constraint") ↔
      ∃ r ∈ resolved, ∃ ds, r.2.dimensions.lookup "cost" = some ds ∧ ds.score < 5) ∧
    (∀ sc ∈ altScenarioList resolved,
      sc.scenario = "If scalability becomes the top priority" →
      ∃ hd, resolved.head? = some hd ∧ sc.recommended_tech ≠ hd.1.technology) ∧
    (∀ sc ∈ altScenarioList resolved,
      sc.scenario = "If team expertise is limited or learning curve is a concern" →
      ∃ hd, resolved.head? = some hd ∧ sc.recommended_tech ≠ hd.1.technology) := by
  refine ⟨?_, ?_, ?_⟩
  · constructor
    · rintro ⟨sc, hsc, hname⟩
      rw [altScenarioList_eq] at hsc
      rcases List.mem_append.mp hsc with h12 | h3
      rcases List.mem_append.mp h12 with h1 | h2
      · cases hbs : (resolved.foldl budgetScanStep (0, none)).2 with
        | none => rw [hbs] at h1; exact absurd h1 (List.not_mem_nil sc)
        | some t =>
          have hiff := (budgetScan_isSome resolved 0 none).mp (by rw [hbs]; rfl)
          rcases hiff with h | ⟨r, hr, ds, hds, hlt⟩
          · simp at h
          · exact ⟨r, hr, ds, hds, by linarith⟩
      · exfalso
        cases hss : (resolved.foldl scaleScanStep (0, none)).2 with
        | none => rw [hss] at h2; exact List.not_mem_nil sc h2
        | some t =>
          rw [hss] at h2
          dsimp only at h2
          by_cases hne : t ≠ (resolved.getD 0 (emptyCompatibilityScore, emptyProfile)).1.technology
          · rw [if_pos hne] at h2
            rw [List.mem_singleton.mp h2] at hname
            exact absurd hname (by dsimp only; decide)
          · rw [if_neg hne] at h2
            exact List.not_mem_nil sc h2
      · exfalso
        cases hps : (resolved.foldl simplicityScanStep (6, none)).2 with
        | none => rw [hps] at h3; exact List.not_mem_nil sc h3
        | some t =>
          rw [hps] at h3
          dsimp only at h3
          by_cases hne : t ≠ (resolved.getD 0 (emptyCompatibilityScore, emptyProfile)).1.technology
          · rw [if_pos hne] at h3
            rw [List.mem_singleton.mp h3] at hname
            exact absurd hname (by dsimp only; decide)
          · rw [if_neg hne] at h3
            exact List.not_mem_nil sc h3
    · rintro ⟨r, hr, ds, hds, hlt⟩
      have hsome : ((resolved.foldl budgetScanStep (0, none)).2).isSome = true :=
        (budgetScan_isSome resolved 0 none).mpr (Or.inr ⟨r, hr, ds, hds, by linarith⟩)
      obtain ⟨t, ht⟩ := Option.isSome_iff_exists.mp hsome
      refine ⟨⟨"If budget becomes the primary constraint", t,
        "This option offers the best cost-effectiveness for the project requirements"⟩, ?_, rfl⟩
      rw [altScenarioList_eq, ht]
      exact List.mem_append_left _ (List.mem_append_left _ (List.mem_singleton.mpr rfl))
  · intro sc hsc hname
    cases resolved with
    | nil => exact absurd hsc (List.not_mem_nil sc)
    | cons hd0 tl =>
      refine ⟨hd0, rfl, ?_⟩
      rw [altScenarioList_eq] at hsc
      rcases List.mem_append.mp hsc with h12 | h3
      rcases List.mem_append.mp h12 with h1 | h2
      · cases hbs : ((hd0 :: tl).foldl budgetScanStep (0, none)).2 with
        | none => rw [hbs] at h1; exact absurd h1 (List.not_mem_nil sc)
        | some t =>
          rw [hbs] at h1
          dsimp only at h1
          rw [List.mem_singleton.mp h1] at hname
          exact absurd hname (by dsimp only; decide)
      · cases hss : ((hd0 :: tl).foldl scaleScanStep (0, none)).2 with
        | none => rw [hss] at h2; exact absurd h2 (List.not_mem_nil sc)
        | some t =>
          rw [hss] at h2
          dsimp only at h2
          by_cases hne : t ≠ ((hd0 :: tl).getD 0 (emptyCompatibilityScore, emptyProfile)).1.technology
          · rw [if_pos hne] at h2
            rw [List.mem_singleton.mp h2]
            exact hne
          · rw [if_neg hne] at h2
            exact absurd h2 (List.not_mem_nil sc)
      · cases hps : ((hd0 :: tl).foldl simplicityScanStep (6, none)).2 with
        | none => rw [hps] at h3; exact absurd h3 (List.not_mem_nil sc)
        | some t =>
          rw [hps] at h3
          dsimp only at h3
          by_cases hne : t ≠ ((hd0 :: tl).getD 0 (emptyCompatibilityScore, emptyProfile)).1.technology
          · rw [if_pos hne] at h3
            rw [List.mem_singleton.mp h3] at hname
            exact absurd hname (by dsimp only; decide)
          · rw [if_neg hne] at h3
            exact absurd h3 (List.not_mem_nil sc)
  · intro sc hsc hname
    cases resolved with
    | nil => exact absurd hsc (List.not_mem_nil sc)
    | cons hd0 tl =>
      refine ⟨hd0, rfl, ?_⟩
      rw [altScenarioList_eq] at hsc
      rcases List.mem_append.mp hsc with h12 | h3
      rcases List.mem_append.mp h12 with h1 | h2
      · cases hbs : ((hd0 :: tl).foldl budgetScanStep (0, none)).2 with
        | none => rw [hbs] at h1; exact absurd h1 (List.not_mem_nil sc)
        | some t =>
          rw [hbs] at h1
          dsimp only at h1
          rw [List.mem_singleton.mp h1] at hname
          exact absurd hname (by dsimp only; decide)
      · cases hss : ((hd0 :: tl).foldl scaleScanStep (0, none)).2 with
        | none => rw [hss] at h2; exact absurd h2 (List.not_mem_nil sc)
        | some t =>
          rw [hss] at h2
          dsimp only at h2
          by_cases hne : t ≠ ((hd0 :: tl).getD 0 (emptyCompatibilityScore, emptyProfile)).1.technology
          · rw [if_pos hne] at h2
            rw [List.mem_singleton.mp h2] at hname
            exact absurd hname (by dsimp only; decide)
          · rw [if_neg hne] at h2
            exact absurd h2 (List.not_mem_nil sc)
      · cases hps : ((hd0 :: tl).foldl simplicityScanStep (6, none)).2 with
        | none => rw [hps] at h3; exact absurd h3 (List.not_mem_nil sc)
        | some t =>
          rw [hps] at h3
          dsimp only at h3
          by_cases hne : t ≠ ((hd0 :: tl).getD 0 (emptyCompatibilityScore, emptyProfile)).1.technology
          · rw [if_pos hne] at h3
            rw [List.mem_singleton.mp h3]
            exact hne
          · rw [if_neg hne] at h3
            exact absurd h3 (List.not_mem_nil sc)

/-- The two concrete technologies of the C6 counterexample: A is listed
first with compatibility 0.3; B is listed second with compatibility 0.9
(the top score).  Both carry a cost dimension with score 5. -/
def c6profA : TechnologyProfile :=
  ⟨"A", "cat", [("cost", ⟨5, "ca"⟩), ("scalability", ⟨3, "sa"⟩), ("complexity", ⟨2, "xa"⟩)],
   ["p"], ["c"], ["b"], ⟨.MATURE, "MIT", "m"⟩⟩

/-- The second technology of the C6 counterexample. -/
def c6profB : TechnologyProfile :=
  ⟨"B", "cat", [("cost", ⟨5, "cb"⟩), ("scalability", ⟨4, "sb"⟩), ("complexity", ⟨3, "xb"⟩)],
   ["p"], ["c"], ["b"], ⟨.MATURE, "MIT", "m"⟩⟩

/-- The resolved (score, profile) pairs of the C6 counterexample. -/
def c6resolved : List (CompatibilityScore × TechnologyProfile) :=
  [(⟨"A", 3/10, "ra"⟩, c6profA), (⟨"B", 9/10, "rb"⟩, c6profB)]

/-- Counterexample to C6 as stated: on technologies A (cost 5,
scalability 3, complexity 2; compatibility 0.3, listed first) and B
(cost 5, scalability 4, complexity 3; compatibility 0.9, listed second),
both have a cost dimension yet no cost-focused scenario is produced
(cost-effectiveness `5 − 5 = 0` never exceeds the strict starting best 0),
and the scalability-focused scenario suggests "B", which IS the technology
with the highest compatibility score — the code compares against the
first list entry "A", not against the top pick. -/
theorem c6_counterexample :
    resolveScores [c6profA, c6profB] [⟨"A", 3/10, "ra"⟩, ⟨"B", 9/10, "rb"⟩] = .ok c6resolved ∧
    (c6profA.dimensions.lookup "cost").isSome = true ∧
    (c6profB.dimensions.lookup "cost").isSome = true ∧
    altScenariosCore c6resolved =
      some [⟨"If scalability becomes the top priority", "B",
             "This option provides the strongest scalability capabilities"⟩] ∧
    ((sortScoresDesc [⟨"A", 3/10, "ra"⟩, ⟨"B", 9/10, "rb"⟩]).getD 0
        emptyCompatibilityScore).technology = "B" :=
  ⟨by rfl, by rfl, by rfl, by rfl, by rfl⟩

/-- Witness for C6's amended theorem, instantiated at the
counterexample's resolved list. -/
theorem c6_witness :
    ((∃ sc ∈ altScenarioList c6resolved,
        sc.scenario = "If budget becomes the primary constraint") ↔
      ∃ r ∈ c6resolved, ∃ ds, r.2.dimensions.lookup "cost" = some ds ∧ ds.score < 5) ∧
    (∀ sc ∈ altScenarioList c6resolved,
      sc.scenario = "If scalability becomes the top priority" →
      ∃ hd, c6resolved.head? = some hd ∧ sc.recommended_tech ≠ hd.1.technology) ∧
    (∀ sc ∈ altScenarioList c6resolved,
      sc.scenario = "If team expertise is limited or learning curve is a concern" →
      ∃ hd, c6resolved.head? = some hd ∧ sc.recommended_tech ≠ hd.1.technology) :=
  c6_alt_scenarios c6resolved

/-! ## C7 -/

/-- The seed of a running maximum is a lower bound of the result. -/
theorem le_foldl_max : ∀ (xs : List ℚ) (b : ℚ), b ≤ xs.foldl max b := by
  intro xs
  induction xs with
  | nil => intro b; exact le_refl b
  | cons x t ih =>
    intro b
    exact le_trans (le_max_left b x) (ih (max b x))

/-- Every element of a list bounds below its running maximum. -/
theorem mem_le_foldl_max : ∀ (xs : List ℚ) (b a : ℚ), a ∈ xs → a ≤ xs.foldl max b := by
  intro xs
  induction xs with
  | nil => intro b a h; exact absurd h (List.not_mem_nil a)
  | cons x t ih =>
    intro b a h
    rcases List.mem_cons.mp h with rfl | hmem
    · exact le_trans (le_max_right b a) (le_foldl_max t (max b a))
    · exact ih (max b x) a hmem

/-- A running maximum is its seed or one of the elements. -/
theorem foldl_max_mem : ∀ (xs : List ℚ) (b : ℚ), xs.foldl max b = b ∨ xs.foldl max b ∈ xs := by
  intro xs
  induction xs with
  | nil => intro b; exact Or.inl rfl
  | cons x t ih =>
    intro b
    rcases ih (max b x) with h | h
    · rw [List.foldl_cons, h]
      rcases max_choice b x with hb | hx
      · exact Or.inl hb
      · exact Or.inr (by rw [hx]; exact List.mem_cons_self x t)
    · exact Or.inr (List.mem_cons_of_mem x h)

/-- Every element is at most the Python `max` of the list. -/
theorem le_listMax {l : List ℚ} {a : ℚ} (h : a ∈ l) : a ≤ listMax l := by
  cases l with
  | nil => exact absurd h (List.not_mem_nil a)
  | cons x t =>
    rcases List.mem_cons.mp h with rfl | hmem
    · exact le_foldl_max t a
    · exact mem_le_foldl_max t x a hmem

/-- The Python `max` of a non-empty list is one of its elements. -/
theorem listMax_mem {l : List ℚ} (h : l ≠ []) : listMax l ∈ l := by
  cases l with
  | nil => exact absurd rfl h
  | cons x t =>
    rcases foldl_max_mem t x with h1 | h1
    · rw [listMax, h1]; exact List.mem_cons_self x t
    · exact List.mem_cons_of_mem x h1

/-- The head of the stable descending sort of a non-empty list is its
maximum (`sorted_scores[0] = max(dim_scores)`). -/
theorem sortDesc_getD_zero (l : List ℚ) (h : l ≠ []) :
    (l.insertionSort (fun a b => b ≤ a)).getD 0 0 = listMax l := by
  have hperm := List.perm_insertionSort (fun a b => b ≤ a) l
  have hsorted := List.sorted_insertionSort (fun a b => b ≤ a) l
  cases hs : l.insertionSort (fun a b => b ≤ a) with
  | nil =>
    rw [hs] at hperm
    exact absurd (hperm.symm.eq_nil) h
  | cons x t =>
    rw [hs] at hperm hsorted
    have hx_mem : x ∈ l := hperm.mem_iff.mp (List.mem_cons_self x t)
    have hmax_mem : listMax l ∈ x :: t := hperm.mem_iff.mpr (listMax_mem h)
    have hxle : x ≤ listMax l := le_listMax hx_mem
    have hgex : listMax l ≤ x := by
      rcases List.mem_cons.mp hmax_mem with heq | hmem
      · rw [heq]
      · exact List.rel_of_sorted_cons hsorted _ hmem
    simp [le_antisymm hxle hgex]

/-- The column read for dimension `i` has one entry per technology. -/
theorem colScores_length (techs : List TechnologyProfile) (scores : List (List ℚ)) (i : ℕ) :
    (colScores techs scores i).length = techs.length := by
  simp [colScores]

/-- C7: in the highlight pass over at least two technologies, dimension
`i` yields a highlight exactly when the column's maximum exceeds the
second-highest entry of the descending-sorted column by at least 0.5; the
highlight names the dimension, its leader attains the column maximum, and
the explanation is the leader's own profile explanation for the dimension
when present, else the generic "Leads in … with score of …" string. -/
theorem c7_highlight_gap_leader (techs : List TechnologyProfile) (dims : List String)
    (scores : List (List ℚ)) (i : ℕ) (h2 : 2 ≤ techs.length) :
    ((highlightAt techs dims scores i).isSome = true ↔
      ((colScores techs scores i).insertionSort (fun a b => b ≤ a)).getD 1 0 + 1/2 ≤
        listMax (colScores techs scores i)) ∧
    ∀ hl, highlightAt techs dims scores i = some hl →
      hl.dimension = dims.getD i "" ∧
      ∃ j, j < techs.length ∧
        (colScores techs scores i).getD j 0 = listMax (colScores techs scores i) ∧
        hl.leader = (techs.getD j emptyProfile).name ∧
        hl.explanation =
          (match (techs.getD j emptyProfile).dimensions.lookup (dims.getD i "") with
           | some ds => ds.explanation
           | none => "Leads in " ++ dims.getD i "" ++ " with score of " ++
               fmt1f (listMax (colScores techs scores i))) := by
  have hlen := colScores_length techs scores i
  have hne : colScores techs scores i ≠ [] := by
    intro h
    rw [h] at hlen
    simp at hlen
    omega
  have hslen : ((colScores techs scores i).insertionSort (fun a b => b ≤ a)).length =
      techs.length := by
    rw [List.length_insertionSort]
    exact hlen
  have hhead := sortDesc_getD_zero (colScores techs scores i) hne
  have hgt1 : ((colScores techs scores i).insertionSort (fun a b => b ≤ a)).length > 1 := by
    omega
  constructor
  · unfold highlightAt
    by_cases hcond : ((colScores techs scores i).insertionSort (fun a b => b ≤ a)).length > 1 ∧
        ((colScores techs scores i).insertionSort (fun a b => b ≤ a)).getD 0 0 -
          ((colScores techs scores i).insertionSort (fun a b => b ≤ a)).getD 1 0 ≥ 1/2
    · rw [if_pos hcond]
      simp only [Option.isSome_some, true_iff]
      have := hcond.2
      rw [hhead] at this
      linarith
    · rw [if_neg hcond]
      rw [not_and] at hcond
      have hg := hcond hgt1
      rw [not_le, hhead] at hg
      simp only [Option.isSome_none]
      constructor
      · intro hc; exact absurd hc (by decide)
      · intro hc; exfalso; linarith
  · intro hl hhl
    unfold highlightAt at hhl
    by_cases hcond : ((colScores techs scores i).insertionSort (fun a b => b ≤ a)).length > 1 ∧
        ((colScores techs scores i).insertionSort (fun a b => b ≤ a)).getD 0 0 -
          ((colScores techs scores i).insertionSort (fun a b => b ≤ a)).getD 1 0 ≥ 1/2
    · rw [if_pos hcond] at hhl
      injection hhl with hhl
      subst hhl
      refine ⟨rfl, (colScores techs scores i).indexOf (listMax (colScores techs scores i)),
        ?_, ?_, rfl, rfl⟩
      · rw [← hlen]
        exact List.indexOf_lt_length.mpr (listMax_mem hne)
      · have hj : (colScores techs scores i).indexOf (listMax (colScores techs scores i)) <
            (colScores techs scores i).length :=
          List.indexOf_lt_length.mpr (listMax_mem hne)
        rw [List.getD_eq_getElem _ _ hj]
        exact List.getElem_indexOf hj
    · rw [if_neg hcond] at hhl
      exact Option.noConfusion hhl

/-- Witness for C7: a two-technology, one-dimension matrix with scores 4
and 3 (gap 1 ≥ 0.5). -/
theorem c7_witness :
    ((highlightAt
        [⟨"A", "cat", [("cost", ⟨4, "ea"⟩)], ["p"], ["c"], ["b"], ⟨.MATURE, "MIT", "m"⟩⟩,
         ⟨"B", "cat", [("cost", ⟨3, "eb"⟩)], ["p"], ["c"], ["b"], ⟨.MATURE, "MIT", "m"⟩⟩]
        ["cost"] [[4], [3]] 0).isSome = true ↔
      ((colScores
        [⟨"A", "cat", [("cost", ⟨4, "ea"⟩)], ["p"], ["c"], ["b"], ⟨.MATURE, "MIT", "m"⟩⟩,
         ⟨"B", "cat", [("cost", ⟨3, "eb"⟩)], ["p"], ["c"], ["b"], ⟨.MATURE, "MIT", "m"⟩⟩]
        [[4], [3]] 0).insertionSort (fun a b => b ≤ a)).getD 1 0 + 1/2 ≤
        listMax (colScores
        [⟨"A", "cat", [("cost", ⟨4, "ea"⟩)], ["p"], ["c"], ["b"], ⟨.MATURE, "MIT", "m"⟩⟩,
         ⟨"B", "cat", [("cost", ⟨3, "eb"⟩)], ["p"], ["c"], ["b"], ⟨.MATURE, "MIT", "m"⟩⟩]
        [[4], [3]] 0)) ∧
    ∀ hl, highlightAt
        [⟨"A", "cat", [("cost", ⟨4, "ea"⟩)], ["p"], ["c"], ["b"], ⟨.MATURE, "MIT", "m"⟩⟩,
         ⟨"B", "cat", [("cost", ⟨3, "eb"⟩)], ["p"], ["c"], ["b"], ⟨.MATURE, "MIT", "m"⟩⟩]
        ["cost"] [[4], [3]] 0 = some hl →
      hl.dimension = (["cost"] : List String).getD 0 "" ∧
      ∃ j, j < ([⟨"A", "cat", [("cost", ⟨4, "ea"⟩)], ["p"], ["c"], ["b"], ⟨.MATURE, "MIT", "m"⟩⟩,
         ⟨"B", "cat", [("cost", ⟨3, "eb"⟩)], ["p"], ["c"], ["b"], ⟨.MATURE, "MIT", "m"⟩⟩] :
           List TechnologyProfile).length ∧
        (colScores
        [⟨"A", "cat", [("cost", ⟨4, "ea"⟩)], ["p"], ["c"], ["b"], ⟨.MATURE, "MIT", "m"⟩⟩,
         ⟨"B", "cat", [("cost", ⟨3, "eb"⟩)], ["p"], ["c"], ["b"], ⟨.MATURE, "MIT", "m"⟩⟩]
        [[4], [3]] 0).getD j 0 = listMax (colScores
        [⟨"A", "cat", [("cost", ⟨4, "ea"⟩)], ["p"], ["c"], ["b"], ⟨.MATURE, "MIT", "m"⟩⟩,
         ⟨"B", "cat", [("cost", ⟨3, "eb"⟩)], ["p"], ["c"], ["b"], ⟨.MATURE, "MIT", "m"⟩⟩]
        [[4], [3]] 0) ∧
        hl.leader = (([⟨"A", "cat", [("cost", ⟨4, "ea"⟩)], ["p"], ["c"], ["b"], ⟨.MATURE, "MIT", "m"⟩⟩,
         ⟨"B", "cat", [("cost", ⟨3, "eb"⟩)], ["p"], ["c"], ["b"], ⟨.MATURE, "MIT", "m"⟩⟩] :
           List TechnologyProfile).getD j emptyProfile).name ∧
        hl.explanation =
          (match (([⟨"A", "cat", [("cost", ⟨4, "ea"⟩)], ["p"], ["c"], ["b"], ⟨.MATURE, "MIT", "m"⟩⟩,
         ⟨"B", "cat", [("cost", ⟨3, "eb"⟩)], ["p"], ["c"], ["b"], ⟨.MATURE, "MIT", "m"⟩⟩] :
           List TechnologyProfile).getD j emptyProfile).dimensions.lookup
              ((["cost"] : List String).getD 0 "") with
           | some ds => ds.explanation
           | none => "Leads in " ++ (["cost"] : List String).getD 0 "" ++ " with score of " ++
               fmt1f (listMax (colScores
        [⟨"A", "cat", [("cost", ⟨4, "ea"⟩)], ["p"], ["c"], ["b"], ⟨.MATURE, "MIT", "m"⟩⟩,
         ⟨"B", "cat", [("cost", ⟨3, "eb"⟩)], ["p"], ["c"], ["b"], ⟨.MATURE, "MIT", "m"⟩⟩]
        [[4], [3]] 0))) :=
  c7_highlight_gap_leader _ _ _ _ (by decide)

end Referee
